import Mathlib

/-!
# Adapter registry of `Modules/_sqlite/microprotocols.c`

A shallow embedding of `pysqlite_microprotocols_add` and
`pysqlite_microprotocols_adapt`, followed by the properties proved about them.

Python objects are represented by their identity (address).  Every call into
user code (`PyObject_CallOneArg`, `_PyObject_LookupAttrId`) is a transformer of
the interpreter state, so that side effects of adapters, `__adapt__` and
`__conform__` (re-entrant registration included) are visible in the model.
-/

set_option autoImplicit false

namespace Microprotocols

/-! ## Data model -/

/-- A Python object, represented by its identity; `NULL` is not an object. -/
abbrev PyObject := Nat

/-- The singleton `None`. -/
def Py_None : PyObject := 0

/-- A pending exception: its class and its message. -/
structure PyErr where
  exc_type : PyObject
  message : String
deriving DecidableEq, Repr

/-- The two attribute names probed by `pysqlite_microprotocols_adapt`. -/
inductive PyIdentifier where
  | PyId___adapt__
  | PyId___conform__
deriving DecidableEq, Repr

/-- A registry key: the pair built by `Py_BuildValue("(OO)", type, proto)`. -/
abbrev Key := PyObject × PyObject

/-- Contents of a dict keyed by `(type, protocol)` pairs: no key occurs twice. -/
structure PyDict where
  entries : List (Key × PyObject)
  keys_nodup : (entries.map Prod.fst).Nodup

/-- Interpreter state that user code can read and change: the contents of the
dict `state->psyco_adapters` and the rest of the heap. -/
structure Interp (H : Type) where
  psyco_adapters : PyDict
  heap : H

/-- The fields of `pysqlite_state` read here that never change after module
initialisation (`psyco_adapters` points to the dict held in `Interp`). -/
structure pysqlite_state where
  ProgrammingError : PyObject

/-- The CPython services used by the file.  Allocation and hashing are functions
of their arguments: a given key can either be built and hashed, or not. -/
structure Runtime (H : Type) where
  /-- The exact runtime type of an object, `Py_TYPE(obj)`. -/
  Py_TYPE : PyObject → PyObject
  /-- The error raised when allocating the key tuple fails, if it does. -/
  tuple_alloc_error : PyObject → PyObject → Option PyErr
  /-- The hash of an object, or the error raised by hashing it. -/
  PyObject_Hash : PyObject → Except PyErr Int
  /-- Attribute lookup `_PyObject_LookupAttrId(o, id, &result)`: `ok none` when the
  attribute is absent, `ok (some a)` when found, `error e` when the lookup itself
  fails. -/
  _PyObject_LookupAttrId :
    PyObject → PyIdentifier → Interp H → Except PyErr (Option PyObject) × Interp H
  /-- The call `PyObject_CallOneArg(callable, arg)`: the object returned or the
  exception raised. -/
  PyObject_CallOneArg : PyObject → PyObject → Interp H → Except PyErr PyObject × Interp H
  /-- The class `TypeError`. -/
  PyExc_TypeError : PyObject
  /-- Whether the pending exception, given first, matches the class `exc`. -/
  PyErr_ExceptionMatches : PyErr → PyObject → Bool

variable {H : Type}

/-! ## The dict behind the registry -/

/-- The tuple `Py_BuildValue("(OO)", a, b)`, unless its allocation fails. -/
def Py_BuildValue (rt : Runtime H) (a b : PyObject) : Except PyErr Key :=
  match rt.tuple_alloc_error a b with
  | some e => .error e
  | none => .ok (a, b)

/-- Hashing a key tuple hashes its items in order; the first failure is raised. -/
def tuple_hash (rt : Runtime H) (key : Key) : Except PyErr Unit :=
  match rt.PyObject_Hash key.1 with
  | .error e => .error e
  | .ok _ =>
    match rt.PyObject_Hash key.2 with
    | .error e => .error e
    | .ok _ => .ok ()

/-- Value stored under `key` (both components compared by identity), if any. -/
def entries_get : List (Key × PyObject) → Key → Option PyObject
  | [], _ => none
  | (k, v) :: rest, key => if k = key then some v else entries_get rest key

/-- Overwrite the value stored under `key`, or add the entry at the end. -/
def entries_set (l : List (Key × PyObject)) (key : Key) (val : PyObject) :
    List (Key × PyObject) :=
  if key ∈ l.map Prod.fst then l.map (fun e => (e.1, if e.1 = key then val else e.2))
  else l ++ [(key, val)]

/-- Modelled from the spec: `PyDict_SetItem` (Objects/dictobject.c is not part of
the sources).  The mapping holds at most one value per key and keys are equal
when both components are the same objects; the key is hashed first, and a
hashing failure is the failure of the operation. -/
def PyDict_SetItem (rt : Runtime H) (d : PyDict) (key : Key) (val : PyObject) :
    Except PyErr PyDict :=
  match tuple_hash rt key with
  | .error e => .error e
  | .ok _ =>
    .ok ⟨entries_set d.entries key val, by
      unfold entries_set
      split
      · have hf : (Prod.fst ∘ fun e : Key × PyObject => (e.1, if e.1 = key then val else e.2))
            = Prod.fst := rfl
        rw [List.map_map, hf]
        exact d.keys_nodup
      · rename_i hmem
        rw [List.map_append, List.nodup_append]
        refine ⟨d.keys_nodup, List.nodup_singleton _, ?_⟩
        intro a ha hb
        simp only [List.map_cons, List.map_nil, List.mem_singleton] at hb
        subst hb
        exact hmem ha⟩

/-- Modelled from the spec: `PyDict_GetItemWithError` (Objects/dictobject.c is not
part of the sources).  Exact-match lookup that tells "no entry" (`ok none`) from
a failure of the lookup itself (`error e`, raised when hashing the key fails). -/
def PyDict_GetItemWithError (rt : Runtime H) (d : PyDict) (key : Key) :
    Except PyErr (Option PyObject) :=
  match tuple_hash rt key with
  | .error e => .error e
  | .ok _ => .ok (entries_get d.entries key)

/-! ## `pysqlite_microprotocols_add` -/

/-- Registration of `cast` under `(type, proto)`: `ok w1` is return value `0` with
the new interpreter state, `error e` is return value `-1` with `e` pending and
the registry untouched. -/
def pysqlite_microprotocols_add (rt : Runtime H) (w : Interp H)
    (type proto cast : PyObject) : Except PyErr (Interp H) :=
  match Py_BuildValue rt type proto with
  | .error e => .error e
  | .ok key =>
    match PyDict_SetItem rt w.psyco_adapters key cast with
    | .error e => .error e
    | .ok d => .ok { w with psyco_adapters := d }

/-! ## `pysqlite_microprotocols_adapt` -/

/-- Outcome of one capability block of `adapt`. -/
inductive Probe (H : Type) where
  /-- The block executed `return`: the function result and the state. -/
  | returned (r : Except PyErr PyObject) (w : Interp H)
  /-- Control passed to the code after the block. -/
  | declined (w : Interp H)

/-- The block of lines 105-121, repeated at lines 124-140 with other arguments:
look the attribute `name` up on `target` and, when present, call it on `arg`. -/
def try_capability (rt : Runtime H) (target : PyObject) (name : PyIdentifier)
    (arg : PyObject) (w : Interp H) : Probe H :=
  match rt._PyObject_LookupAttrId target name w with
  | (.error e, w1) => .returned (.error e) w1
  | (.ok none, w1) => .declined w1
  | (.ok (some adapter), w1) =>
    match rt.PyObject_CallOneArg adapter arg w1 with
    | (.ok adapted, w2) =>
      if adapted = Py_None then .declined w2 else .returned (.ok adapted) w2
    | (.error e, w2) =>
      if rt.PyErr_ExceptionMatches e rt.PyExc_TypeError then .declined w2
      else .returned (.error e) w2

/-- Lines 88-93: the registry lookup under `(Py_TYPE(obj), proto)`. -/
def registry_lookup (rt : Runtime H) (w : Interp H) (obj proto : PyObject) :
    Except PyErr (Option PyObject) :=
  match Py_BuildValue rt (rt.Py_TYPE obj) proto with
  | .error e => .error e
  | .ok key => PyDict_GetItemWithError rt w.psyco_adapters key

/-- Lines 142-147: the alternative when given, else `ProgrammingError`. -/
def adapt_alt (state : pysqlite_state) (alt : Option PyObject) (w : Interp H) :
    Except PyErr PyObject × Interp H :=
  match alt with
  | some a => (.ok a, w)
  | none => (.error ⟨state.ProgrammingError, "can't adapt"⟩, w)

/-- Lines 123-147: `__conform__` of the object, then the alternative. -/
def adapt_conform (rt : Runtime H) (state : pysqlite_state) (w : Interp H)
    (obj proto : PyObject) (alt : Option PyObject) : Except PyErr PyObject × Interp H :=
  match try_capability rt obj .PyId___conform__ proto w with
  | .returned r w1 => (r, w1)
  | .declined w1 => adapt_alt state alt w1

/-- Lines 104-147: `__adapt__` of the protocol, then the rest. -/
def adapt_protocol (rt : Runtime H) (state : pysqlite_state) (w : Interp H)
    (obj proto : PyObject) (alt : Option PyObject) : Except PyErr PyObject × Interp H :=
  match try_capability rt proto .PyId___adapt__ obj w with
  | .returned r w1 => (r, w1)
  | .declined w1 => adapt_conform rt state w1 obj proto alt

/-- The whole function: `alt = none` is a `NULL` alternative; the result is the
returned object or the pending exception, with the interpreter state reached. -/
def pysqlite_microprotocols_adapt (rt : Runtime H) (state : pysqlite_state) (w : Interp H)
    (obj proto : PyObject) (alt : Option PyObject) : Except PyErr PyObject × Interp H :=
  match registry_lookup rt w obj proto with
  | .error e => (.error e, w)
  | .ok (some adapter) => rt.PyObject_CallOneArg adapter obj w
  | .ok none => adapt_protocol rt state w obj proto alt

/-! ## Vocabulary of the properties -/

/-- The capability `name` of `target` does not resolve the adaptation: it is
absent, or its call on `arg` returns `None`, or that call raises an exception
matching `TypeError`; `w1` is the interpreter state left behind. -/
def Declines (rt : Runtime H) (target : PyObject) (name : PyIdentifier) (arg : PyObject)
    (w w1 : Interp H) : Prop :=
  rt._PyObject_LookupAttrId target name w = (.ok none, w1) ∨
  ∃ f w0, rt._PyObject_LookupAttrId target name w = (.ok (some f), w0) ∧
    (rt.PyObject_CallOneArg f arg w0 = (.ok Py_None, w1) ∨
     ∃ e, rt.PyObject_CallOneArg f arg w0 = (.error e, w1) ∧
       rt.PyErr_ExceptionMatches e rt.PyExc_TypeError = true)

/-- The attribute table `attrs` answers the lookup of `name` on `target` as `rt`
does, except that where `rt` finds a capability whose call on `arg` returns
`None`, `attrs` may report the attribute absent; all else is equal: the state
it leaves is the one that call would leave. -/
def AbsentWhereNone (rt : Runtime H)
    (attrs : PyObject → PyIdentifier → Interp H → Except PyErr (Option PyObject) × Interp H)
    (target : PyObject) (name : PyIdentifier) (arg : PyObject) : Prop :=
  ∀ s, attrs target name s = rt._PyObject_LookupAttrId target name s ∨
    ∃ f s1 s2, rt._PyObject_LookupAttrId target name s = (.ok (some f), s1) ∧
      rt.PyObject_CallOneArg f arg s1 = (.ok Py_None, s2) ∧
      attrs target name s = (.ok none, s2)

/-- The call table `calls` behaves as the calls of `rt`, except that where a call
of `rt` raises an exception matching `TypeError`, `calls` may return `None`
instead, leaving the same state. -/
def NoneWhereTypeError (rt : Runtime H)
    (calls : PyObject → PyObject → Interp H → Except PyErr PyObject × Interp H) : Prop :=
  ∀ f a s, calls f a s = rt.PyObject_CallOneArg f a s ∨
    ∃ e s1, rt.PyObject_CallOneArg f a s = (.error e, s1) ∧
      rt.PyErr_ExceptionMatches e rt.PyExc_TypeError = true ∧
      calls f a s = (.ok Py_None, s1)

/-! ## A small concrete interpreter, used to instantiate the theorems -/

/-- An empty registry over a heap that holds a counter of calls made. -/
def demo_start : Interp Nat := ⟨⟨[], List.nodup_nil⟩, 0⟩

/-- The module state of the examples: `ProgrammingError` is object 9. -/
def demo_state : pysqlite_state := ⟨9⟩

/-- Objects of the examples: 42 and 43 have type 100, every other object has type
101; `TypeError` is object 7 and `ValueError` object 8.  Callable 50 returns
object 60, callable 51 returns `None`, callable 52 raises `TypeError`, callable
53 raises `ValueError`, any other callable returns its argument; every call but
that of 51 increments the heap counter.  Protocol 20 has `__adapt__` 50,
protocol 21 has 51, protocol 22 has 52, protocol 23 has 53; object 43 has
`__conform__` 50, object 44 has 51, object 45 has 53; looking `__conform__` up
on object 46 raises `TypeError`, looking `__adapt__` up on protocol 25 raises
`ValueError`.  Object 30 cannot be hashed. -/
def demo_runtime : Runtime Nat where
  Py_TYPE := fun o => if o = 42 ∨ o = 43 then 100 else 101
  tuple_alloc_error := fun _ _ => none
  PyObject_Hash := fun o => if o = 30 then .error ⟨7, "unhashable type"⟩ else .ok (Int.ofNat o)
  _PyObject_LookupAttrId := fun o name w =>
    match name with
    | .PyId___adapt__ =>
      if o = 20 then (.ok (some 50), w) else if o = 21 then (.ok (some 51), w)
      else if o = 22 then (.ok (some 52), w) else if o = 23 then (.ok (some 53), w)
      else if o = 25 then (.error ⟨8, "lookup failed"⟩, w)
      else (.ok none, w)
    | .PyId___conform__ =>
      if o = 43 then (.ok (some 50), w) else if o = 44 then (.ok (some 51), w)
      else if o = 45 then (.ok (some 53), w)
      else if o = 46 then (.error ⟨7, "lookup failed"⟩, w) else (.ok none, w)
  PyObject_CallOneArg := fun f arg w =>
    if f = 50 then (.ok 60, { w with heap := w.heap + 1 })
    else if f = 51 then (.ok Py_None, w)
    else if f = 52 then (.error ⟨7, "wrong type"⟩, { w with heap := w.heap + 1 })
    else if f = 53 then (.error ⟨8, "bad value"⟩, { w with heap := w.heap + 1 })
    else (.ok arg, { w with heap := w.heap + 1 })
  PyExc_TypeError := 7
  PyErr_ExceptionMatches := fun e c => e.exc_type == c

/-- The attribute table of `demo_runtime` without the `__adapt__` of protocol 21
and without the `__conform__` of object 44. -/
def demo_attrs_removed :
    PyObject → PyIdentifier → Interp Nat → Except PyErr (Option PyObject) × Interp Nat :=
  fun o name w =>
    if (o = 21 ∧ name = .PyId___adapt__) ∨ (o = 44 ∧ name = .PyId___conform__) then (.ok none, w)
    else demo_runtime._PyObject_LookupAttrId o name w

/-- The calls of `demo_runtime`, where callable 52 returns `None` instead of
raising `TypeError`. -/
def demo_calls_quiet :
    PyObject → PyObject → Interp Nat → Except PyErr PyObject × Interp Nat :=
  fun f a w =>
    if f = 52 then (.ok Py_None, { w with heap := w.heap + 1 })
    else demo_runtime.PyObject_CallOneArg f a w

/-- The registry of the examples after adapter 99 was added under `(100, 20)`. -/
def demo_registered : Interp Nat := ⟨⟨[((100, 20), 99)], by simp⟩, 0⟩

/-- Control of `adapt(v, P)` reaches line 142 in state `w2`: the registry lookup
reported no entry and both capabilities were absent or declined. -/
def ReachesAlt (rt : Runtime H) (w : Interp H) (v P : PyObject) (w2 : Interp H) : Prop :=
  registry_lookup rt w v P = .ok none ∧
  ∃ w1, Declines rt P .PyId___adapt__ v w w1 ∧ Declines rt v .PyId___conform__ P w1 w2

/-- The interpreter of the examples, where callable 54 raises
`ProgrammingError("can't adapt")` itself. -/
def demo_runtime_mimic : Runtime Nat :=
  { demo_runtime with
    PyObject_CallOneArg := fun f a w =>
      if f = 54 then (.error ⟨9, "can't adapt"⟩, w) else demo_runtime.PyObject_CallOneArg f a w }

/-- The registry of the examples with callable 54 as the adapter of `(100, 20)`. -/
def demo_registered_mimic : Interp Nat := ⟨⟨[((100, 20), 54)], by simp⟩, 0⟩

/-- The capability `name` of `target`, asked in state `w`, produces the failure
`e` and leaves state `w1`: its lookup raises `e`, or its call on `arg` raises `e`
and `e` does not match `TypeError`. -/
def CapabilityFails (rt : Runtime H) (target : PyObject) (name : PyIdentifier)
    (arg : PyObject) (w : Interp H) (e : PyErr) (w1 : Interp H) : Prop :=
  rt._PyObject_LookupAttrId target name w = (.error e, w1) ∨
  ∃ f w0, rt._PyObject_LookupAttrId target name w = (.ok (some f), w0) ∧
    rt.PyObject_CallOneArg f arg w0 = (.error e, w1) ∧
    rt.PyErr_ExceptionMatches e rt.PyExc_TypeError = false

/-- The failure `e`, with final state `wf`, is produced by a step that
`adapt(v, P)` invokes when called in state `w`: the registry lookup fails with
`e`; or the adapter found in the registry raises `e`; or, with no entry, the
`__adapt__` capability of `P` produces `e`, or it is absent or declines and the
`__conform__` capability of `v` produces `e`. -/
def FailureOfInvoked (rt : Runtime H) (w : Interp H) (v P : PyObject) (e : PyErr)
    (wf : Interp H) : Prop :=
  (registry_lookup rt w v P = .error e ∧ wf = w) ∨
  (∃ a, registry_lookup rt w v P = .ok (some a) ∧
    rt.PyObject_CallOneArg a v w = (.error e, wf)) ∨
  (registry_lookup rt w v P = .ok none ∧
    (CapabilityFails rt P .PyId___adapt__ v w e wf ∨
     ∃ w1, Declines rt P .PyId___adapt__ v w w1 ∧
       CapabilityFails rt v .PyId___conform__ P w1 e wf))

/-- The user code that `adapt(v, P)` invokes after its registry lookup answered
`found` in state `w` leaves the registry as it finds it: the adapter found, when
there is one; else the lookup of `__adapt__` on `P`, the call of the capability
it finds, and, when `__adapt__` is absent or declines, the lookup of
`__conform__` on `v` and the call of the capability it finds.  Nothing is asked
of code that the call does not invoke. -/
def InvokedKeepRegistry (rt : Runtime H) (found : Option PyObject) (w : Interp H)
    (v P : PyObject) : Prop :=
  match found with
  | some a => (rt.PyObject_CallOneArg a v w).2.psyco_adapters = w.psyco_adapters
  | none =>
    (rt._PyObject_LookupAttrId P .PyId___adapt__ w).2.psyco_adapters = w.psyco_adapters ∧
    (∀ f w1, rt._PyObject_LookupAttrId P .PyId___adapt__ w = (.ok (some f), w1) →
      (rt.PyObject_CallOneArg f v w1).2.psyco_adapters = w1.psyco_adapters) ∧
    (∀ w1, Declines rt P .PyId___adapt__ v w w1 →
      (rt._PyObject_LookupAttrId v .PyId___conform__ w1).2.psyco_adapters
        = w1.psyco_adapters ∧
      ∀ g w2, rt._PyObject_LookupAttrId v .PyId___conform__ w1 = (.ok (some g), w2) →
        (rt.PyObject_CallOneArg g P w2).2.psyco_adapters = w2.psyco_adapters)

/-- Lines 88-93 when hashing the key runs user code (a `__hash__` written in
Python): `hashing o s` is the hash of `o` or the error raised, with the state
that hashing leaves.  The two items of the key are hashed in order and the dict
is read in the state reached. -/
def registry_lookup_hashing (rt : Runtime H)
    (hashing : PyObject → Interp H → Except PyErr Int × Interp H)
    (w : Interp H) (obj proto : PyObject) : Except PyErr (Option PyObject) × Interp H :=
  match Py_BuildValue rt (rt.Py_TYPE obj) proto with
  | .error e => (.error e, w)
  | .ok key =>
    match hashing key.1 w with
    | (.error e, w1) => (.error e, w1)
    | (.ok _, w1) =>
      match hashing key.2 w1 with
      | (.error e, w2) => (.error e, w2)
      | (.ok _, w2) => (.ok (entries_get w2.psyco_adapters.entries key), w2)

/-- The whole function when hashing the key runs user code: as
`pysqlite_microprotocols_adapt`, from the state that the lookup leaves. -/
def pysqlite_microprotocols_adapt_hashing (rt : Runtime H)
    (hashing : PyObject → Interp H → Except PyErr Int × Interp H)
    (state : pysqlite_state) (w : Interp H) (obj proto : PyObject) (alt : Option PyObject) :
    Except PyErr PyObject × Interp H :=
  match registry_lookup_hashing rt hashing w obj proto with
  | (.error e, w1) => (.error e, w1)
  | (.ok (some adapter), w1) => rt.PyObject_CallOneArg adapter obj w1
  | (.ok none, w1) => adapt_protocol rt state w1 obj proto alt

/-- The interpreter of the examples, where callable 55 registers adapter 99
under `(100, 20)` when it is called. -/
def demo_runtime_registering : Runtime Nat :=
  { demo_runtime with
    PyObject_CallOneArg := fun f a w =>
      if f = 55 then
        match pysqlite_microprotocols_add demo_runtime w 100 20 99 with
        | .ok w1 => (.ok Py_None, w1)
        | .error e => (.error e, w)
      else demo_runtime.PyObject_CallOneArg f a w }

/-- A hashing of the examples that runs code: it adds 10 to the heap counter. -/
def demo_hashing : PyObject → Interp Nat → Except PyErr Int × Interp Nat :=
  fun o s => (demo_runtime.PyObject_Hash o, { s with heap := s.heap + 10 })

/-! ## Lemmas on the dict and on the pieces of `adapt` -/

theorem entries_get_append_new (l : List (Key × PyObject)) (key other : Key)
    (val : PyObject) :
    entries_get (l ++ [(key, val)]) other =
      match entries_get l other with
      | some x => some x
      | none => if key = other then some val else none := by
  induction l with
  | nil => simp [entries_get]
  | cons hd tl ih =>
    obtain ⟨k, v⟩ := hd
    by_cases hk : k = other
    · subst hk
      simp [entries_get]
    · simp only [List.cons_append, entries_get, if_neg hk]
      exact ih

theorem entries_get_eq_none (l : List (Key × PyObject)) (key : Key)
    (h : key ∉ l.map Prod.fst) : entries_get l key = none := by
  induction l with
  | nil => rfl
  | cons hd tl ih =>
    obtain ⟨k, v⟩ := hd
    have hk : ¬ k = key := fun hk => h (by simp [hk])
    have ht : key ∉ tl.map Prod.fst := fun ht => h (by simp [List.mem_map] at ht ⊢; exact Or.inr ht)
    simp only [entries_get, if_neg hk]
    exact ih ht

theorem entries_get_map_update (l : List (Key × PyObject)) (key other : Key)
    (val : PyObject) :
    entries_get (l.map (fun e => (e.1, if e.1 = key then val else e.2))) other =
      if other = key then (entries_get l other).map (fun _ => val)
      else entries_get l other := by
  induction l with
  | nil => simp [entries_get]
  | cons hd tl ih =>
    obtain ⟨k, v⟩ := hd
    by_cases hk : k = key
    · subst hk
      by_cases ho : other = k
      · subst ho
        simp [entries_get]
      · have ho2 : ¬ k = other := fun h => ho h.symm
        simp only [List.map_cons, if_true, entries_get, if_neg ho2, if_neg ho, ih]
    · by_cases ho : k = other
      · subst ho
        simp [entries_get, hk]
      · simp only [List.map_cons, if_neg hk, entries_get, if_neg ho, ih]

theorem entries_get_isSome_of_mem (l : List (Key × PyObject)) (key : Key)
    (h : key ∈ l.map Prod.fst) : ∃ x, entries_get l key = some x := by
  induction l with
  | nil => simp at h
  | cons hd tl ih =>
    obtain ⟨k, v⟩ := hd
    by_cases hk : k = key
    · exact ⟨v, by simp [entries_get, hk]⟩
    · have ht : key ∈ tl.map Prod.fst := by
        rcases List.mem_cons.mp h with h1 | h1
        · exact absurd h1.symm hk
        · exact h1
      obtain ⟨x, hx⟩ := ih ht
      exact ⟨x, by simp only [entries_get, if_neg hk, hx]⟩

theorem entries_get_set_same (l : List (Key × PyObject)) (key : Key) (val : PyObject) :
    entries_get (entries_set l key val) key = some val := by
  unfold entries_set
  split
  · rename_i hmem
    obtain ⟨x, hx⟩ := entries_get_isSome_of_mem l key hmem
    rw [entries_get_map_update, if_pos rfl, hx]
    rfl
  · rename_i hmem
    rw [entries_get_append_new, entries_get_eq_none l key hmem]
    simp

theorem entries_get_set_other (l : List (Key × PyObject)) (key other : Key) (val : PyObject)
    (hne : key ≠ other) : entries_get (entries_set l key val) other = entries_get l other := by
  unfold entries_set
  split
  · rw [entries_get_map_update, if_neg (fun h => hne h.symm)]
  · rw [entries_get_append_new, if_neg hne]
    cases entries_get l other <;> rfl

theorem mem_keys_of_entries_get (l : List (Key × PyObject)) (key : Key) (x : PyObject)
    (h : entries_get l key = some x) : key ∈ l.map Prod.fst := by
  by_contra hmem
  rw [entries_get_eq_none l key hmem] at h
  exact Option.noConfusion h

theorem entries_set_keys_of_mem (l : List (Key × PyObject)) (key : Key) (val : PyObject)
    (h : key ∈ l.map Prod.fst) : (entries_set l key val).map Prod.fst = l.map Prod.fst := by
  unfold entries_set
  rw [if_pos h, List.map_map]
  rfl

/-- In a list without duplicate keys, the entries under `key` are the one that
the lookup finds, if any. -/
theorem entries_filter_key (l : List (Key × PyObject)) (key : Key)
    (h : (l.map Prod.fst).Nodup) :
    l.filter (fun e => decide (e.1 = key)) =
      match entries_get l key with
      | some x => [(key, x)]
      | none => [] := by
  induction l with
  | nil => rfl
  | cons hd tl ih =>
    obtain ⟨k, v⟩ := hd
    rw [List.map_cons, List.nodup_cons] at h
    obtain ⟨hk, htl⟩ := h
    by_cases hkey : k = key
    · subst hkey
      have hnone : entries_get tl k = none := entries_get_eq_none tl k hk
      have htail := ih htl
      rw [hnone] at htail
      simp only [List.filter_cons, decide_True, if_true, entries_get, htail]
    · simp only [List.filter_cons, hkey, decide_False, Bool.false_eq_true, if_false, entries_get]
      exact ih htl

/-- What a successful registration tells: the key could be built and hashed, the
dict is the old one with the entry set, and the heap is the same. -/
theorem add_ok_inv (rt : Runtime H) (w w1 : Interp H) (T P A : PyObject)
    (hadd : pysqlite_microprotocols_add rt w T P A = .ok w1) :
    Py_BuildValue rt T P = .ok (T, P) ∧ tuple_hash rt (T, P) = .ok () ∧
      w1.psyco_adapters.entries = entries_set w.psyco_adapters.entries (T, P) A ∧
      w1.heap = w.heap := by
  unfold pysqlite_microprotocols_add at hadd
  have hb : Py_BuildValue rt T P = .ok (T, P) := by
    unfold Py_BuildValue at hadd ⊢
    cases halloc : rt.tuple_alloc_error T P with
    | none => rfl
    | some e => simp [halloc] at hadd
  rw [hb] at hadd
  simp only [PyDict_SetItem] at hadd
  cases hh : tuple_hash rt (T, P) with
  | error e => simp [hh] at hadd
  | ok u =>
    simp only [hh, Except.ok.injEq] at hadd
    subst hadd
    exact ⟨hb, rfl, rfl, rfl⟩

theorem try_capability_of_declines (rt : Runtime H) (target : PyObject)
    (name : PyIdentifier) (arg : PyObject) (w w1 : Interp H)
    (h : Declines rt target name arg w w1) :
    try_capability rt target name arg w = .declined w1 := by
  unfold try_capability
  rcases h with h | ⟨f, w0, hl, hc | ⟨e, hc, hm⟩⟩
  · rw [h]
  · rw [hl]
    dsimp only
    rw [hc]
    dsimp only
    rw [if_pos rfl]
  · rw [hl]
    dsimp only
    rw [hc]
    dsimp only
    rw [if_pos hm]

theorem declines_of_try_capability (rt : Runtime H) (target : PyObject)
    (name : PyIdentifier) (arg : PyObject) (w w1 : Interp H)
    (h : try_capability rt target name arg w = .declined w1) :
    Declines rt target name arg w w1 := by
  unfold try_capability at h
  rcases hl : rt._PyObject_LookupAttrId target name w with ⟨r, w0⟩
  rw [hl] at h
  rcases r with e | _ | f
  · exact Probe.noConfusion h
  · dsimp only at h
    injection h with h
    subst h
    exact Or.inl hl
  · dsimp only at h
    rcases hc : rt.PyObject_CallOneArg f arg w0 with ⟨r2, w2⟩
    rw [hc] at h
    rcases r2 with e | x
    · dsimp only at h
      by_cases hm : rt.PyErr_ExceptionMatches e rt.PyExc_TypeError = true
      · rw [if_pos hm] at h
        injection h with h
        subst h
        exact Or.inr ⟨f, w0, hl, Or.inr ⟨e, hc, hm⟩⟩
      · rw [if_neg hm] at h
        exact Probe.noConfusion h
    · dsimp only at h
      by_cases hx : x = Py_None
      · rw [if_pos hx] at h
        injection h with h
        subst h
        subst hx
        exact Or.inr ⟨f, w0, hl, Or.inl hc⟩
      · rw [if_neg hx] at h
        exact Probe.noConfusion h

theorem try_capability_absent_where_none (rt : Runtime H)
    (attrs : PyObject → PyIdentifier → Interp H → Except PyErr (Option PyObject) × Interp H)
    (target : PyObject) (name : PyIdentifier) (arg : PyObject)
    (h : AbsentWhereNone rt attrs target name arg) (s : Interp H) :
    try_capability { rt with _PyObject_LookupAttrId := attrs } target name arg s
      = try_capability rt target name arg s := by
  rcases h s with h1 | ⟨f, s1, s2, hl, hc, ha⟩
  · simp only [try_capability, h1]
  · simp only [try_capability, ha, hl, hc, if_true]

theorem try_capability_none_where_type_error (rt : Runtime H)
    (calls : PyObject → PyObject → Interp H → Except PyErr PyObject × Interp H)
    (h : NoneWhereTypeError rt calls)
    (target : PyObject) (name : PyIdentifier) (arg : PyObject) (s : Interp H) :
    try_capability { rt with PyObject_CallOneArg := calls } target name arg s
      = try_capability rt target name arg s := by
  unfold try_capability
  dsimp only
  rcases hl : rt._PyObject_LookupAttrId target name s with ⟨r, s1⟩
  rcases r with e | _ | f
  · rfl
  · rfl
  · dsimp only
    rcases h f arg s1 with h1 | ⟨e, s2, hc, hm, hq⟩
    · rw [h1]
    · rw [hq, hc]
      dsimp only
      rw [if_pos rfl, if_pos hm]

/-- A block of `adapt` returns an exception matching `TypeError` only when the
attribute lookup itself raised it. -/
theorem try_capability_returned_type_error (rt : Runtime H) (target : PyObject)
    (name : PyIdentifier) (arg : PyObject) (s s1 : Interp H) (e : PyErr)
    (h : try_capability rt target name arg s = .returned (.error e) s1)
    (hm : rt.PyErr_ExceptionMatches e rt.PyExc_TypeError = true) :
    rt._PyObject_LookupAttrId target name s = (.error e, s1) := by
  unfold try_capability at h
  rcases hl : rt._PyObject_LookupAttrId target name s with ⟨r, s0⟩
  rw [hl] at h
  rcases r with e0 | _ | f
  · dsimp only at h
    injection h with h1 h2
    injection h1 with h1
    rw [h1, h2]
  · exact Probe.noConfusion h
  · dsimp only at h
    rcases hc : rt.PyObject_CallOneArg f arg s0 with ⟨r2, s2⟩
    rw [hc] at h
    rcases r2 with e2 | x
    · dsimp only at h
      by_cases hm2 : rt.PyErr_ExceptionMatches e2 rt.PyExc_TypeError = true
      · rw [if_pos hm2] at h
        exact Probe.noConfusion h
      · rw [if_neg hm2] at h
        injection h with h1 h2
        injection h1 with h1
        rw [h1] at hm2
        exact absurd hm hm2
    · dsimp only at h
      by_cases hx : x = Py_None
      · rw [if_pos hx] at h
        exact Probe.noConfusion h
      · rw [if_neg hx] at h
        injection h with h1 h2
        exact Except.noConfusion h1

/-- After a successful registration under `(T, P)`, the lookup made for an object
of exact type `T` and protocol `P` finds the registered adapter. -/
theorem registry_lookup_after_add (rt : Runtime H) (w w1 : Interp H) (T P A v : PyObject)
    (hadd : pysqlite_microprotocols_add rt w T P A = .ok w1) (hT : rt.Py_TYPE v = T) :
    registry_lookup rt w1 v P = .ok (some A) := by
  obtain ⟨hb, hh, hent, _⟩ := add_ok_inv rt w w1 T P A hadd
  unfold registry_lookup
  rw [hT, hb]
  simp only [PyDict_GetItemWithError, hh, hent, entries_get_set_same]

/-! ## The properties -/

/-- C1: once `pysqlite_microprotocols_add(T, P, A)` has succeeded, adapting a value
`v` of exact type `T` to `P` yields exactly the outcome of calling `A` on `v`
(object, `None` or exception alike, with the state that call leaves), for every
alternative and whatever the attribute lookups (`__adapt__`, `__conform__`) of
the interpreter would answer. -/
theorem adapt_registered_adapter (rt : Runtime H) (state : pysqlite_state)
    (w w1 : Interp H) (T P A v : PyObject)
    (hadd : pysqlite_microprotocols_add rt w T P A = .ok w1) (hT : rt.Py_TYPE v = T)
    (attrs : PyObject → PyIdentifier → Interp H → Except PyErr (Option PyObject) × Interp H)
    (alt : Option PyObject) :
    pysqlite_microprotocols_adapt { rt with _PyObject_LookupAttrId := attrs } state w1 v P alt
      = rt.PyObject_CallOneArg A v w1 := by
  have hl : registry_lookup { rt with _PyObject_LookupAttrId := attrs } w1 v P = .ok (some A) :=
    registry_lookup_after_add rt w w1 T P A v hadd hT
  unfold pysqlite_microprotocols_adapt
  rw [hl]

theorem adapt_registered_adapter_witness :
    pysqlite_microprotocols_add demo_runtime demo_start 100 20 99 = .ok demo_registered ∧
    demo_runtime.Py_TYPE 43 = 100 ∧
    pysqlite_microprotocols_adapt
      { demo_runtime with _PyObject_LookupAttrId := demo_runtime._PyObject_LookupAttrId }
      demo_state demo_registered 43 20 (some 5)
      = demo_runtime.PyObject_CallOneArg 99 43 demo_registered :=
  ⟨rfl, rfl, adapt_registered_adapter demo_runtime demo_state demo_start demo_registered
    100 20 99 43 rfl rfl demo_runtime._PyObject_LookupAttrId (some 5)⟩

/-- C2: with no registry entry for `(Py_TYPE(v), P)`, no `__adapt__` on `P`, no
`__conform__` on `v` and no alternative, `pysqlite_microprotocols_adapt` fails with
`ProgrammingError("can't adapt")`. -/
theorem adapt_not_supported (rt : Runtime H) (state : pysqlite_state)
    (w w1 w2 : Interp H) (v P : PyObject)
    (hreg : registry_lookup rt w v P = .ok none)
    (hadapt : rt._PyObject_LookupAttrId P .PyId___adapt__ w = (.ok none, w1))
    (hconform : rt._PyObject_LookupAttrId v .PyId___conform__ w1 = (.ok none, w2)) :
    pysqlite_microprotocols_adapt rt state w v P none
      = (.error ⟨state.ProgrammingError, "can't adapt"⟩, w2) := by
  unfold pysqlite_microprotocols_adapt
  rw [hreg]
  simp only [adapt_protocol, adapt_conform, try_capability, hadapt, hconform, adapt_alt]

theorem adapt_not_supported_witness :
    registry_lookup demo_runtime demo_registered 42 24 = .ok none ∧
    demo_runtime._PyObject_LookupAttrId 24 .PyId___adapt__ demo_registered
      = (.ok none, demo_registered) ∧
    demo_runtime._PyObject_LookupAttrId 42 .PyId___conform__ demo_registered
      = (.ok none, demo_registered) ∧
    pysqlite_microprotocols_adapt demo_runtime demo_state demo_registered 42 24 none
      = (.error ⟨9, "can't adapt"⟩, demo_registered) :=
  ⟨rfl, rfl, rfl, adapt_not_supported demo_runtime demo_state demo_registered
    demo_registered demo_registered 42 24 rfl rfl rfl⟩

/-- C3: with no registry entry for `(Py_TYPE(v), P)`, when `__adapt__` of `P` and
`__conform__` of `v` are each absent or decline (return `None`, or raise an
exception matching `TypeError`), `pysqlite_microprotocols_adapt` with an
alternative `F` succeeds and returns `F` itself, also when `F` is `None`. -/
theorem adapt_returns_alt (rt : Runtime H) (state : pysqlite_state)
    (w w1 w2 : Interp H) (v P F : PyObject)
    (hreg : registry_lookup rt w v P = .ok none)
    (hadapt : Declines rt P .PyId___adapt__ v w w1)
    (hconform : Declines rt v .PyId___conform__ P w1 w2) :
    pysqlite_microprotocols_adapt rt state w v P (some F) = (.ok F, w2) := by
  unfold pysqlite_microprotocols_adapt
  rw [hreg]
  simp only [adapt_protocol, adapt_conform, adapt_alt,
    try_capability_of_declines rt _ _ _ _ _ hadapt,
    try_capability_of_declines rt _ _ _ _ _ hconform]

theorem adapt_returns_alt_witness :
    registry_lookup demo_runtime demo_start 42 22 = .ok none ∧
    Declines demo_runtime 22 .PyId___adapt__ 42 demo_start ⟨demo_start.psyco_adapters, 1⟩ ∧
    Declines demo_runtime 42 .PyId___conform__ 22 ⟨demo_start.psyco_adapters, 1⟩
      ⟨demo_start.psyco_adapters, 1⟩ ∧
    pysqlite_microprotocols_adapt demo_runtime demo_state demo_start 42 22 (some Py_None)
      = (.ok Py_None, ⟨demo_start.psyco_adapters, 1⟩) :=
  ⟨rfl, Or.inr ⟨52, demo_start, rfl, Or.inr ⟨⟨7, "wrong type"⟩, rfl, rfl⟩⟩, Or.inl rfl,
    adapt_returns_alt demo_runtime demo_state demo_start ⟨demo_start.psyco_adapters, 1⟩
      ⟨demo_start.psyco_adapters, 1⟩ 42 22 Py_None rfl
      (Or.inr ⟨52, demo_start, rfl, Or.inr ⟨⟨7, "wrong type"⟩, rfl, rfl⟩⟩) (Or.inl rfl)⟩

/-- C4: with no registry entry for `(Py_TYPE(v), P)`, when `__adapt__` of `P` called
on `v` returns an object `x` other than `None`, `pysqlite_microprotocols_adapt`
returns `x` for every alternative, in the state left by that call: nothing is
asked of `v` afterwards, whatever its `__conform__` would do. -/
theorem adapt_protocol_first (rt : Runtime H) (state : pysqlite_state)
    (w w1 w2 : Interp H) (v P f x : PyObject)
    (hreg : registry_lookup rt w v P = .ok none)
    (hattr : rt._PyObject_LookupAttrId P .PyId___adapt__ w = (.ok (some f), w1))
    (hcall : rt.PyObject_CallOneArg f v w1 = (.ok x, w2))
    (hx : x ≠ Py_None) (alt : Option PyObject) :
    pysqlite_microprotocols_adapt rt state w v P alt = (.ok x, w2) := by
  unfold pysqlite_microprotocols_adapt
  rw [hreg]
  simp only [adapt_protocol, try_capability, hattr, hcall, if_neg hx]

theorem adapt_protocol_first_witness :
    registry_lookup demo_runtime demo_start 43 20 = .ok none ∧
    demo_runtime._PyObject_LookupAttrId 20 .PyId___adapt__ demo_start
      = (.ok (some 50), demo_start) ∧
    demo_runtime.PyObject_CallOneArg 50 43 demo_start
      = (.ok 60, ⟨demo_start.psyco_adapters, 1⟩) ∧
    (60 : PyObject) ≠ Py_None ∧
    pysqlite_microprotocols_adapt demo_runtime demo_state demo_start 43 20 (some 5)
      = (.ok 60, ⟨demo_start.psyco_adapters, 1⟩) :=
  ⟨rfl, rfl, rfl, by decide, adapt_protocol_first demo_runtime demo_state demo_start
    demo_start ⟨demo_start.psyco_adapters, 1⟩ 43 20 50 60 rfl rfl rfl (by decide) (some 5)⟩

/-- C5: a capability that exists and returns `None` is the same, for the caller,
as no capability at all: removing from the interpreter an `__adapt__` of `P`
whose call on `v` returns `None`, or a `__conform__` of `v` whose call on `P`
returns `None` (or both), all else equal, leaves the result of
`pysqlite_microprotocols_adapt` unchanged, for every alternative. -/
theorem adapt_none_as_absent (rt : Runtime H) (state : pysqlite_state) (w : Interp H)
    (v P : PyObject) (alt : Option PyObject)
    (attrs : PyObject → PyIdentifier → Interp H → Except PyErr (Option PyObject) × Interp H)
    (hadapt : AbsentWhereNone rt attrs P .PyId___adapt__ v)
    (hconform : AbsentWhereNone rt attrs v .PyId___conform__ P) :
    pysqlite_microprotocols_adapt { rt with _PyObject_LookupAttrId := attrs } state w v P alt
      = pysqlite_microprotocols_adapt rt state w v P alt := by
  have hreg : registry_lookup { rt with _PyObject_LookupAttrId := attrs } w v P
      = registry_lookup rt w v P := rfl
  unfold pysqlite_microprotocols_adapt
  rw [hreg]
  cases registry_lookup rt w v P with
  | error e => rfl
  | ok found =>
    cases found with
    | some a => rfl
    | none =>
      simp only [adapt_protocol, adapt_conform,
        try_capability_absent_where_none rt attrs _ _ _ hadapt,
        try_capability_absent_where_none rt attrs _ _ _ hconform]

theorem adapt_none_as_absent_witness :
    AbsentWhereNone demo_runtime demo_attrs_removed 21 .PyId___adapt__ 44 ∧
    AbsentWhereNone demo_runtime demo_attrs_removed 44 .PyId___conform__ 21 ∧
    pysqlite_microprotocols_adapt
      { demo_runtime with _PyObject_LookupAttrId := demo_attrs_removed }
      demo_state demo_start 44 21 (some 5)
      = pysqlite_microprotocols_adapt demo_runtime demo_state demo_start 44 21 (some 5) :=
  ⟨fun s => Or.inr ⟨51, s, s, rfl, rfl, rfl⟩, fun s => Or.inr ⟨51, s, s, rfl, rfl, rfl⟩,
    adapt_none_as_absent demo_runtime demo_state demo_start 44 21 (some 5) demo_attrs_removed
      (fun s => Or.inr ⟨51, s, s, rfl, rfl, rfl⟩) (fun s => Or.inr ⟨51, s, s, rfl, rfl, rfl⟩)⟩

/-- C6: with no registry entry for `(Py_TYPE(v), P)`, a capability call that raises
an exception matching `TypeError` gives the same result of
`pysqlite_microprotocols_adapt` as that call returning `None`; and the exception
is dropped: when `adapt` fails with an exception matching `TypeError`, that
exception was raised by an attribute lookup or is the final "can't adapt" error,
never one raised by the `__adapt__` or `__conform__` call. -/
theorem adapt_type_error_as_none (rt : Runtime H) (state : pysqlite_state) (w : Interp H)
    (v P : PyObject) (alt : Option PyObject)
    (hreg : registry_lookup rt w v P = .ok none) :
    (∀ calls, NoneWhereTypeError rt calls →
      pysqlite_microprotocols_adapt { rt with PyObject_CallOneArg := calls } state w v P alt
        = pysqlite_microprotocols_adapt rt state w v P alt) ∧
    (∀ e wf, pysqlite_microprotocols_adapt rt state w v P alt = (.error e, wf) →
      rt.PyErr_ExceptionMatches e rt.PyExc_TypeError = true →
      (∃ s, rt._PyObject_LookupAttrId P .PyId___adapt__ s = (.error e, wf)) ∨
      (∃ s, rt._PyObject_LookupAttrId v .PyId___conform__ s = (.error e, wf)) ∨
      (alt = none ∧ e = ⟨state.ProgrammingError, "can't adapt"⟩)) := by
  constructor
  · intro calls hcalls
    have hreg2 : registry_lookup { rt with PyObject_CallOneArg := calls } w v P = .ok none :=
      hreg
    unfold pysqlite_microprotocols_adapt
    rw [hreg, hreg2]
    simp only [adapt_protocol, adapt_conform,
      try_capability_none_where_type_error rt calls hcalls]
  · intro e wf hres hm
    unfold pysqlite_microprotocols_adapt at hres
    rw [hreg] at hres
    simp only [adapt_protocol] at hres
    cases h2 : try_capability rt P .PyId___adapt__ v w with
    | returned r w1 =>
      rw [h2] at hres
      simp only [Prod.mk.injEq] at hres
      obtain ⟨hr, hw⟩ := hres
      subst hr hw
      exact Or.inl ⟨w, try_capability_returned_type_error rt _ _ _ _ _ _ h2 hm⟩
    | declined w1 =>
      rw [h2] at hres
      simp only [adapt_conform] at hres
      cases h3 : try_capability rt v .PyId___conform__ P w1 with
      | returned r w2 =>
        rw [h3] at hres
        simp only [Prod.mk.injEq] at hres
        obtain ⟨hr, hw⟩ := hres
        subst hr hw
        exact Or.inr (Or.inl ⟨w1, try_capability_returned_type_error rt _ _ _ _ _ _ h3 hm⟩)
      | declined w2 =>
        rw [h3] at hres
        cases alt with
        | some a => simp [adapt_alt] at hres
        | none =>
          simp only [adapt_alt, Prod.mk.injEq, Except.error.injEq] at hres
          exact Or.inr (Or.inr ⟨rfl, hres.1.symm⟩)

theorem adapt_type_error_as_none_witness :
    (registry_lookup demo_runtime demo_start 42 22 = .ok none ∧
      NoneWhereTypeError demo_runtime demo_calls_quiet ∧
      pysqlite_microprotocols_adapt
        { demo_runtime with PyObject_CallOneArg := demo_calls_quiet }
        demo_state demo_start 42 22 none
        = pysqlite_microprotocols_adapt demo_runtime demo_state demo_start 42 22 none) ∧
    (registry_lookup demo_runtime demo_start 46 22 = .ok none ∧
      pysqlite_microprotocols_adapt demo_runtime demo_state demo_start 46 22 none
        = (.error ⟨7, "lookup failed"⟩, ⟨demo_start.psyco_adapters, 1⟩) ∧
      demo_runtime.PyErr_ExceptionMatches ⟨7, "lookup failed"⟩ demo_runtime.PyExc_TypeError
        = true ∧
      ((∃ s, demo_runtime._PyObject_LookupAttrId 22 .PyId___adapt__ s
          = (.error ⟨7, "lookup failed"⟩, ⟨demo_start.psyco_adapters, 1⟩)) ∨
        (∃ s, demo_runtime._PyObject_LookupAttrId 46 .PyId___conform__ s
          = (.error ⟨7, "lookup failed"⟩, ⟨demo_start.psyco_adapters, 1⟩)) ∨
        ((none : Option PyObject) = none ∧
          (⟨7, "lookup failed"⟩ : PyErr) = ⟨demo_state.ProgrammingError, "can't adapt"⟩))) :=
  have hq : NoneWhereTypeError demo_runtime demo_calls_quiet := fun f a s => by
    by_cases hf : f = 52
    · subst hf
      exact Or.inr ⟨⟨7, "wrong type"⟩, { s with heap := s.heap + 1 }, rfl, rfl, rfl⟩
    · exact Or.inl (by simp [demo_calls_quiet, hf])
  ⟨⟨rfl, hq,
    (adapt_type_error_as_none demo_runtime demo_state demo_start 42 22 none rfl).1
      demo_calls_quiet hq⟩,
   ⟨rfl, rfl, rfl,
    (adapt_type_error_as_none demo_runtime demo_state demo_start 46 22 none rfl).2
      ⟨7, "lookup failed"⟩ ⟨demo_start.psyco_adapters, 1⟩ rfl rfl⟩⟩

/-- C7: with no registry entry for `(Py_TYPE(v), P)`, an exception `e` not matching
`TypeError` that is raised by the `__adapt__` call is the result of
`pysqlite_microprotocols_adapt`, in the state that call leaves (nothing is asked
of `v`), for every alternative; and when `__adapt__` is absent or declined, such
an exception raised by the `__conform__` call is the result, for every
alternative. -/
theorem adapt_propagates_error (rt : Runtime H) (state : pysqlite_state) (w : Interp H)
    (v P : PyObject) (alt : Option PyObject)
    (hreg : registry_lookup rt w v P = .ok none) :
    (∀ f e w1 w2,
      rt._PyObject_LookupAttrId P .PyId___adapt__ w = (.ok (some f), w1) →
      rt.PyObject_CallOneArg f v w1 = (.error e, w2) →
      rt.PyErr_ExceptionMatches e rt.PyExc_TypeError = false →
      pysqlite_microprotocols_adapt rt state w v P alt = (.error e, w2)) ∧
    (∀ g e w1 w2 w3,
      Declines rt P .PyId___adapt__ v w w1 →
      rt._PyObject_LookupAttrId v .PyId___conform__ w1 = (.ok (some g), w2) →
      rt.PyObject_CallOneArg g P w2 = (.error e, w3) →
      rt.PyErr_ExceptionMatches e rt.PyExc_TypeError = false →
      pysqlite_microprotocols_adapt rt state w v P alt = (.error e, w3)) := by
  constructor
  · intro f e w1 w2 hattr hcall hm
    unfold pysqlite_microprotocols_adapt
    rw [hreg]
    simp [adapt_protocol, try_capability, hattr, hcall, hm]
  · intro g e w1 w2 w3 hadapt hattr hcall hm
    unfold pysqlite_microprotocols_adapt
    rw [hreg]
    simp only [adapt_protocol, try_capability_of_declines rt _ _ _ _ _ hadapt, adapt_conform]
    simp [try_capability, hattr, hcall, hm]

theorem adapt_propagates_error_witness :
    (registry_lookup demo_runtime demo_start 42 23 = .ok none ∧
      pysqlite_microprotocols_adapt demo_runtime demo_state demo_start 42 23 (some 5)
        = (.error ⟨8, "bad value"⟩, ⟨demo_start.psyco_adapters, 1⟩)) ∧
    (registry_lookup demo_runtime demo_start 45 24 = .ok none ∧
      Declines demo_runtime 24 .PyId___adapt__ 45 demo_start demo_start ∧
      pysqlite_microprotocols_adapt demo_runtime demo_state demo_start 45 24 (some 5)
        = (.error ⟨8, "bad value"⟩, ⟨demo_start.psyco_adapters, 1⟩)) :=
  ⟨⟨rfl, (adapt_propagates_error demo_runtime demo_state demo_start 42 23 (some 5) rfl).1
      53 ⟨8, "bad value"⟩ demo_start ⟨demo_start.psyco_adapters, 1⟩ rfl rfl rfl⟩,
   ⟨rfl, Or.inl rfl,
    (adapt_propagates_error demo_runtime demo_state demo_start 45 24 (some 5) rfl).2
      53 ⟨8, "bad value"⟩ demo_start demo_start ⟨demo_start.psyco_adapters, 1⟩
      (Or.inl rfl) rfl rfl rfl⟩⟩

/-- C8: with no registry entry for `(Py_TYPE(v), P)` and `__adapt__` of `P` absent
or declining (`None`, or an exception matching `TypeError`), when `__conform__`
of `v` called on `P` returns an object `y` other than `None`,
`pysqlite_microprotocols_adapt` returns `y` for every alternative: neither the
alternative nor the "can't adapt" error is the result. -/
theorem adapt_conform_value (rt : Runtime H) (state : pysqlite_state)
    (w w1 w2 w3 : Interp H) (v P g y : PyObject)
    (hreg : registry_lookup rt w v P = .ok none)
    (hadapt : Declines rt P .PyId___adapt__ v w w1)
    (hattr : rt._PyObject_LookupAttrId v .PyId___conform__ w1 = (.ok (some g), w2))
    (hcall : rt.PyObject_CallOneArg g P w2 = (.ok y, w3))
    (hy : y ≠ Py_None) (alt : Option PyObject) :
    pysqlite_microprotocols_adapt rt state w v P alt = (.ok y, w3) := by
  unfold pysqlite_microprotocols_adapt
  rw [hreg]
  simp only [adapt_protocol, try_capability_of_declines rt _ _ _ _ _ hadapt, adapt_conform]
  simp only [try_capability, hattr, hcall, if_neg hy]

theorem adapt_conform_value_witness :
    registry_lookup demo_runtime demo_start 43 21 = .ok none ∧
    Declines demo_runtime 21 .PyId___adapt__ 43 demo_start demo_start ∧
    demo_runtime._PyObject_LookupAttrId 43 .PyId___conform__ demo_start
      = (.ok (some 50), demo_start) ∧
    demo_runtime.PyObject_CallOneArg 50 21 demo_start
      = (.ok 60, ⟨demo_start.psyco_adapters, 1⟩) ∧
    (60 : PyObject) ≠ Py_None ∧
    pysqlite_microprotocols_adapt demo_runtime demo_state demo_start 43 21 (some 5)
      = (.ok 60, ⟨demo_start.psyco_adapters, 1⟩) :=
  ⟨rfl, Or.inr ⟨51, demo_start, rfl, Or.inl rfl⟩, rfl, rfl, by decide,
    adapt_conform_value demo_runtime demo_state demo_start demo_start demo_start
      ⟨demo_start.psyco_adapters, 1⟩ 43 21 50 60 rfl
      (Or.inr ⟨51, demo_start, rfl, Or.inl rfl⟩) rfl rfl (by decide) (some 5)⟩

/-- C9: when `pysqlite_microprotocols_add(T, P, A1)` has succeeded, a second
`pysqlite_microprotocols_add(T, P, A2)` succeeds too; afterwards the registry
holds exactly one entry under `(T, P)`, with value `A2`, its keys are those it
had after the first registration, and adapting a value of exact type `T` to `P`
gives the outcome of `A2`. -/
theorem add_twice_overwrites (rt : Runtime H) (w w1 : Interp H) (T P A1 A2 : PyObject)
    (hadd : pysqlite_microprotocols_add rt w T P A1 = .ok w1) :
    ∃ w2, pysqlite_microprotocols_add rt w1 T P A2 = .ok w2 ∧
      w2.psyco_adapters.entries.filter (fun e => decide (e.1 = (T, P))) = [((T, P), A2)] ∧
      w2.psyco_adapters.entries.map Prod.fst = w1.psyco_adapters.entries.map Prod.fst ∧
      ∀ (state : pysqlite_state) (v : PyObject) (alt : Option PyObject), rt.Py_TYPE v = T →
        pysqlite_microprotocols_adapt rt state w2 v P alt = rt.PyObject_CallOneArg A2 v w2 := by
  obtain ⟨hb, hh, hent, _⟩ := add_ok_inv rt w w1 T P A1 hadd
  have hmem : (T, P) ∈ w1.psyco_adapters.entries.map Prod.fst := by
    apply mem_keys_of_entries_get _ _ A1
    rw [hent, entries_get_set_same]
  have hadd2 : ∃ w2, pysqlite_microprotocols_add rt w1 T P A2 = .ok w2 := by
    unfold pysqlite_microprotocols_add
    rw [hb]
    simp only [PyDict_SetItem, hh]
    exact ⟨_, rfl⟩
  obtain ⟨w2, hadd2⟩ := hadd2
  obtain ⟨_, _, hent2, _⟩ := add_ok_inv rt w1 w2 T P A2 hadd2
  refine ⟨w2, hadd2, ?_, ?_, ?_⟩
  · rw [entries_filter_key _ _ w2.psyco_adapters.keys_nodup, hent2, entries_get_set_same]
  · rw [hent2, entries_set_keys_of_mem _ _ _ hmem]
  · intro state v alt hT
    have hl := registry_lookup_after_add rt w1 w2 T P A2 v hadd2 hT
    unfold pysqlite_microprotocols_adapt
    rw [hl]

theorem add_twice_overwrites_witness :
    pysqlite_microprotocols_add demo_runtime demo_start 100 20 98 = .ok ⟨⟨[((100, 20), 98)], by simp⟩, 0⟩ ∧
    ∃ w2, pysqlite_microprotocols_add demo_runtime ⟨⟨[((100, 20), 98)], by simp⟩, 0⟩ 100 20 99
        = .ok w2 ∧
      w2.psyco_adapters.entries.filter (fun e => decide (e.1 = (100, 20))) = [((100, 20), 99)] ∧
      w2.psyco_adapters.entries.map Prod.fst = [(100, 20)] ∧
      ∀ (state : pysqlite_state) (v : PyObject) (alt : Option PyObject),
        demo_runtime.Py_TYPE v = 100 →
        pysqlite_microprotocols_adapt demo_runtime state w2 v 20 alt
          = demo_runtime.PyObject_CallOneArg 99 v w2 :=
  ⟨rfl, add_twice_overwrites demo_runtime demo_start ⟨⟨[((100, 20), 98)], by simp⟩, 0⟩
    100 20 98 99 rfl⟩

/-- C10: the registry is looked up under the exact type of the value.  After
`pysqlite_microprotocols_add(T, P, A)`, for a value `v` whose exact type is not
`T` the registry lookup of `adapt(v, P)` answers what it answered before the
registration; when that was "no entry", `adapt(v, P, alt)` runs the steps that
follow the registry (`__adapt__`, `__conform__`, alternative) as with a registry
holding nothing for `v`: the adapter `A` is not the one called. -/
theorem adapt_exact_type (rt : Runtime H) (state : pysqlite_state) (w w1 : Interp H)
    (T P A v : PyObject) (alt : Option PyObject)
    (hadd : pysqlite_microprotocols_add rt w T P A = .ok w1)
    (hT : rt.Py_TYPE v ≠ T) :
    registry_lookup rt w1 v P = registry_lookup rt w v P ∧
    (registry_lookup rt w v P = .ok none →
      pysqlite_microprotocols_adapt rt state w1 v P alt = adapt_protocol rt state w1 v P alt) := by
  obtain ⟨_, _, hent, _⟩ := add_ok_inv rt w w1 T P A hadd
  have hne : (T, P) ≠ (rt.Py_TYPE v, P) := fun h => hT (congrArg Prod.fst h).symm
  have hl : registry_lookup rt w1 v P = registry_lookup rt w v P := by
    unfold registry_lookup Py_BuildValue
    cases rt.tuple_alloc_error (rt.Py_TYPE v) P with
    | some e => rfl
    | none =>
      simp only [PyDict_GetItemWithError, hent, entries_get_set_other _ _ _ _ hne]
  refine ⟨hl, fun hnone => ?_⟩
  unfold pysqlite_microprotocols_adapt
  rw [hl, hnone]

theorem adapt_exact_type_witness :
    pysqlite_microprotocols_add demo_runtime demo_start 100 24 99
      = .ok ⟨⟨[((100, 24), 99)], by simp⟩, 0⟩ ∧
    demo_runtime.Py_TYPE 41 ≠ 100 ∧
    registry_lookup demo_runtime demo_start 41 24 = .ok none ∧
    registry_lookup demo_runtime ⟨⟨[((100, 24), 99)], by simp⟩, 0⟩ 41 24 = .ok none ∧
    pysqlite_microprotocols_adapt demo_runtime demo_state ⟨⟨[((100, 24), 99)], by simp⟩, 0⟩
      41 24 (some 5) = (.ok 5, ⟨⟨[((100, 24), 99)], by simp⟩, 0⟩) :=
  have h := adapt_exact_type demo_runtime demo_state demo_start
    ⟨⟨[((100, 24), 99)], by simp⟩, 0⟩ 100 24 99 41 (some 5) rfl (by decide)
  ⟨rfl, by decide, rfl, h.1, (h.2 rfl).trans rfl⟩

/-! ## Further lemmas -/

theorem mem_keys_entries_set (l : List (Key × PyObject)) (key k : Key) (val : PyObject)
    (h : k ∈ l.map Prod.fst) : k ∈ (entries_set l key val).map Prod.fst := by
  by_cases hmem : key ∈ l.map Prod.fst
  · rw [entries_set_keys_of_mem l key val hmem]
    exact h
  · unfold entries_set
    rw [if_neg hmem, List.map_append]
    exact List.mem_append_left _ h

/-- A block of `adapt` returns the exception `e` exactly when its capability
produces the failure `e`. -/
theorem capability_fails_of_returned (rt : Runtime H) (target : PyObject)
    (name : PyIdentifier) (arg : PyObject) (s s1 : Interp H) (e : PyErr)
    (h : try_capability rt target name arg s = .returned (.error e) s1) :
    CapabilityFails rt target name arg s e s1 := by
  unfold try_capability at h
  rcases hl : rt._PyObject_LookupAttrId target name s with ⟨r, s0⟩
  rw [hl] at h
  rcases r with e0 | _ | f
  · dsimp only at h
    injection h with h1 h2
    injection h1 with h1
    subst h1 h2
    exact Or.inl hl
  · exact Probe.noConfusion h
  · dsimp only at h
    rcases hc : rt.PyObject_CallOneArg f arg s0 with ⟨r2, s2⟩
    rw [hc] at h
    rcases r2 with e2 | x
    · dsimp only at h
      by_cases hm2 : rt.PyErr_ExceptionMatches e2 rt.PyExc_TypeError = true
      · rw [if_pos hm2] at h
        exact Probe.noConfusion h
      · rw [if_neg hm2] at h
        injection h with h1 h2
        injection h1 with h1
        subst h1 h2
        exact Or.inr ⟨f, s0, hl, hc, Bool.eq_false_iff.mpr hm2⟩
    · dsimp only at h
      by_cases hx : x = Py_None
      · rw [if_pos hx] at h
        exact Probe.noConfusion h
      · rw [if_neg hx] at h
        injection h with h1 h2
        exact Except.noConfusion h1

theorem returned_of_capability_fails (rt : Runtime H) (target : PyObject)
    (name : PyIdentifier) (arg : PyObject) (s s1 : Interp H) (e : PyErr)
    (h : CapabilityFails rt target name arg s e s1) :
    try_capability rt target name arg s = .returned (.error e) s1 := by
  unfold try_capability
  rcases h with h | ⟨f, s0, hl, hc, hm⟩
  · rw [h]
  · rw [hl]
    dsimp only
    rw [hc]
    dsimp only
    rw [hm]
    rfl

/-- A block of `adapt` leaves the registry as it found it when the attribute lookup
it makes and the call of the capability found do. -/
theorem try_capability_registry (rt : Runtime H) (target : PyObject)
    (name : PyIdentifier) (arg : PyObject) (s : Interp H)
    (hattr : (rt._PyObject_LookupAttrId target name s).2.psyco_adapters = s.psyco_adapters)
    (hcall : ∀ f s0, rt._PyObject_LookupAttrId target name s = (.ok (some f), s0) →
      (rt.PyObject_CallOneArg f arg s0).2.psyco_adapters = s0.psyco_adapters) :
    (∀ r s1, try_capability rt target name arg s = .returned r s1 →
      s1.psyco_adapters = s.psyco_adapters) ∧
    (∀ s1, try_capability rt target name arg s = .declined s1 →
      s1.psyco_adapters = s.psyco_adapters) := by
  unfold try_capability
  rcases hl : rt._PyObject_LookupAttrId target name s with ⟨r0, s0⟩
  have ha : s0.psyco_adapters = s.psyco_adapters := by
    have h := hattr
    rw [hl] at h
    exact h
  rcases r0 with e0 | _ | f
  · dsimp only
    constructor
    · intro r s1 h
      injection h with _ h2
      rw [← h2, ha]
    · intro s1 h
      exact Probe.noConfusion h
  · dsimp only
    constructor
    · intro r s1 h
      exact Probe.noConfusion h
    · intro s1 h
      injection h with h2
      rw [← h2, ha]
  · dsimp only
    have hc := hcall f s0 hl
    rcases hcl : rt.PyObject_CallOneArg f arg s0 with ⟨r2, s2⟩
    rw [hcl] at hc
    dsimp only at hc
    have hs2 : s2.psyco_adapters = s.psyco_adapters := hc.trans ha
    rcases r2 with e2 | x
    · dsimp only
      by_cases hm : rt.PyErr_ExceptionMatches e2 rt.PyExc_TypeError = true
      · rw [if_pos hm]
        constructor
        · intro r s1 h
          exact Probe.noConfusion h
        · intro s1 h
          injection h with h2
          rw [← h2, hs2]
      · rw [if_neg hm]
        constructor
        · intro r s1 h
          injection h with _ h2
          rw [← h2, hs2]
        · intro s1 h
          exact Probe.noConfusion h
    · dsimp only
      by_cases hx : x = Py_None
      · rw [if_pos hx]
        constructor
        · intro r s1 h
          exact Probe.noConfusion h
        · intro s1 h
          injection h with h2
          rw [← h2, hs2]
      · rw [if_neg hx]
        constructor
        · intro r s1 h
          injection h with _ h2
          rw [← h2, hs2]
        · intro s1 h
          exact Probe.noConfusion h

/-- The steps after the registry lookup leave the registry as they find it when
the user code they invoke does. -/
theorem after_lookup_registry (rt : Runtime H) (state : pysqlite_state) (w : Interp H)
    (v P : PyObject) (alt : Option PyObject) (found : Option PyObject)
    (h : InvokedKeepRegistry rt found w v P) :
    (match found with
      | some a => rt.PyObject_CallOneArg a v w
      | none => adapt_protocol rt state w v P alt).2.psyco_adapters = w.psyco_adapters := by
  cases found with
  | some a => exact h
  | none =>
    obtain ⟨hattrP, hcallP, hstep3⟩ := h
    dsimp only
    unfold adapt_protocol
    have h1 := try_capability_registry rt P .PyId___adapt__ v w hattrP hcallP
    cases h2 : try_capability rt P .PyId___adapt__ v w with
    | returned r w1 => exact h1.1 r w1 h2
    | declined w1 =>
      dsimp only
      unfold adapt_conform
      have hw1 := h1.2 w1 h2
      obtain ⟨hattrv, hcallv⟩ := hstep3 w1 (declines_of_try_capability rt _ _ _ _ _ h2)
      have h3 := try_capability_registry rt v .PyId___conform__ P w1 hattrv hcallv
      cases h4 : try_capability rt v .PyId___conform__ P w1 with
      | returned r w2 => exact (h3.1 r w2 h4).trans hw1
      | declined w2 =>
        dsimp only
        have hw2 := (h3.2 w2 h4).trans hw1
        cases alt with
        | some a => exact hw2
        | none => exact hw2

theorem getitem_after_add_same (rt : Runtime H) (w w1 : Interp H) (T P A : PyObject)
    (hadd : pysqlite_microprotocols_add rt w T P A = .ok w1) :
    PyDict_GetItemWithError rt w1.psyco_adapters (T, P) = .ok (some A) := by
  obtain ⟨_, hh, hent, _⟩ := add_ok_inv rt w w1 T P A hadd
  simp only [PyDict_GetItemWithError, hh, hent, entries_get_set_same]

theorem getitem_after_add_other (rt : Runtime H) (w w1 : Interp H) (T P A : PyObject)
    (key : Key) (hadd : pysqlite_microprotocols_add rt w T P A = .ok w1)
    (hne : key ≠ (T, P)) :
    PyDict_GetItemWithError rt w1.psyco_adapters key
      = PyDict_GetItemWithError rt w.psyco_adapters key := by
  obtain ⟨_, _, hent, _⟩ := add_ok_inv rt w w1 T P A hadd
  simp only [PyDict_GetItemWithError, hent, entries_get_set_other _ _ _ _ (Ne.symm hne)]

/-! ## The properties, continued -/

/-- C11: registry keys are compared by identity of both components.  After
`pysqlite_microprotocols_add(T, P, A)`, a dict lookup under `(T2, P2)` that found
nothing before and finds an adapter now was made with `T2` the object `T` and
`P2` the object `P` (and finds `A`); and two distinct protocol objects have
entries of their own: after a further registration under `(T, P2)` with `P2`
another object than `P`, the lookups under `(T, P)` and `(T, P2)` find `A` and
`A2`, whatever the hashes of the objects. -/
theorem registry_key_identity (rt : Runtime H) (w w1 : Interp H) (T P A : PyObject)
    (hadd : pysqlite_microprotocols_add rt w T P A = .ok w1) :
    (∀ T2 P2 x, PyDict_GetItemWithError rt w.psyco_adapters (T2, P2) = .ok none →
      PyDict_GetItemWithError rt w1.psyco_adapters (T2, P2) = .ok (some x) →
      T2 = T ∧ P2 = P ∧ x = A) ∧
    (∀ P2 A2 w2, P2 ≠ P → pysqlite_microprotocols_add rt w1 T P2 A2 = .ok w2 →
      PyDict_GetItemWithError rt w2.psyco_adapters (T, P) = .ok (some A) ∧
      PyDict_GetItemWithError rt w2.psyco_adapters (T, P2) = .ok (some A2)) := by
  constructor
  · intro T2 P2 x hbefore hafter
    by_cases hk : (T2, P2) = (T, P)
    · rw [hk, getitem_after_add_same rt w w1 T P A hadd] at hafter
      injection hafter with hafter
      injection hafter with hafter
      injection hk with h1 h2
      exact ⟨h1, h2, hafter.symm⟩
    · rw [getitem_after_add_other rt w w1 T P A _ hadd hk, hbefore] at hafter
      injection hafter with hafter
      exact Option.noConfusion hafter
  · intro P2 A2 w2 hP hadd2
    have hne : (T, P) ≠ (T, P2) := fun h => hP (congrArg Prod.snd h).symm
    constructor
    · rw [getitem_after_add_other rt w1 w2 T P2 A2 _ hadd2 hne]
      exact getitem_after_add_same rt w w1 T P A hadd
    · exact getitem_after_add_same rt w1 w2 T P2 A2 hadd2

theorem registry_key_identity_witness :
    pysqlite_microprotocols_add demo_runtime demo_start 100 20 99 = .ok demo_registered ∧
    (PyDict_GetItemWithError demo_runtime demo_start.psyco_adapters (100, 20) = .ok none ∧
      PyDict_GetItemWithError demo_runtime demo_registered.psyco_adapters (100, 20)
        = .ok (some 99) ∧
      ((100 : PyObject) = 100 ∧ (20 : PyObject) = 20 ∧ (99 : PyObject) = 99)) ∧
    ((21 : PyObject) ≠ 20 ∧
      pysqlite_microprotocols_add demo_runtime demo_registered 100 21 98
        = .ok ⟨⟨[((100, 20), 99), ((100, 21), 98)], by simp⟩, 0⟩ ∧
      PyDict_GetItemWithError demo_runtime
        (⟨⟨[((100, 20), 99), ((100, 21), 98)], by simp⟩, 0⟩ : Interp Nat).psyco_adapters
        (100, 20) = .ok (some 99) ∧
      PyDict_GetItemWithError demo_runtime
        (⟨⟨[((100, 20), 99), ((100, 21), 98)], by simp⟩, 0⟩ : Interp Nat).psyco_adapters
        (100, 21) = .ok (some 98)) :=
  have h := registry_key_identity demo_runtime demo_start demo_registered 100 20 99 rfl
  ⟨rfl, ⟨rfl, rfl, h.1 100 20 99 rfl rfl⟩,
    ⟨by decide, rfl, h.2 21 98 ⟨⟨[((100, 20), 99), ((100, 21), 98)], by simp⟩, 0⟩
      (by decide) rfl⟩⟩

/-- C12: a failure of the registry lookup is not "no entry".  When the lookup of
`adapt(v, P)` fails with `e`, as it does when hashing the protocol fails,
`pysqlite_microprotocols_adapt` fails with `e` in the state it was called in,
for every alternative: no capability is probed and neither the alternative nor
"can't adapt" is the result; the steps after the registry run when the lookup
reports no entry. -/
theorem adapt_lookup_failure (rt : Runtime H) (state : pysqlite_state) (w : Interp H)
    (v P : PyObject) (alt : Option PyObject) :
    (∀ e, registry_lookup rt w v P = .error e →
      pysqlite_microprotocols_adapt rt state w v P alt = (.error e, w)) ∧
    (∀ e h, rt.tuple_alloc_error (rt.Py_TYPE v) P = none →
      rt.PyObject_Hash (rt.Py_TYPE v) = .ok h → rt.PyObject_Hash P = .error e →
      pysqlite_microprotocols_adapt rt state w v P alt = (.error e, w)) ∧
    (registry_lookup rt w v P = .ok none →
      pysqlite_microprotocols_adapt rt state w v P alt = adapt_protocol rt state w v P alt) := by
  refine ⟨?_, ?_, ?_⟩
  · intro e he
    unfold pysqlite_microprotocols_adapt
    rw [he]
  · intro e h halloc hT hP
    have he : registry_lookup rt w v P = .error e := by
      simp only [registry_lookup, Py_BuildValue, halloc, PyDict_GetItemWithError, tuple_hash,
        hT, hP]
    unfold pysqlite_microprotocols_adapt
    rw [he]
  · intro hnone
    unfold pysqlite_microprotocols_adapt
    rw [hnone]

theorem adapt_lookup_failure_witness :
    registry_lookup demo_runtime demo_start 42 30 = .error ⟨7, "unhashable type"⟩ ∧
    demo_runtime.tuple_alloc_error (demo_runtime.Py_TYPE 42) 30 = none ∧
    demo_runtime.PyObject_Hash (demo_runtime.Py_TYPE 42) = .ok 100 ∧
    demo_runtime.PyObject_Hash 30 = .error ⟨7, "unhashable type"⟩ ∧
    registry_lookup demo_runtime demo_start 42 24 = .ok none ∧
    pysqlite_microprotocols_adapt demo_runtime demo_state demo_start 42 30 (some 5)
      = (.error ⟨7, "unhashable type"⟩, demo_start) ∧
    pysqlite_microprotocols_adapt demo_runtime demo_state demo_start 42 24 (some 5)
      = adapt_protocol demo_runtime demo_state demo_start 42 24 (some 5) :=
  ⟨rfl, rfl, rfl, rfl, rfl,
    (adapt_lookup_failure demo_runtime demo_state demo_start 42 30 (some 5)).2.1
      ⟨7, "unhashable type"⟩ 100 rfl rfl rfl,
    (adapt_lookup_failure demo_runtime demo_state demo_start 42 24 (some 5)).2.2 rfl⟩

/-- C13, as the claim states it, fails: with callable 54 registered for
`(100, 20)`, a registry entry exists for the value 42 and the adapter is
invoked, yet `pysqlite_microprotocols_adapt` fails with
`ProgrammingError("can't adapt")`, the error of line 146. -/
theorem cant_adapt_raised_by_adapter :
    registry_lookup demo_runtime_mimic demo_registered_mimic 42 20 = .ok (some 54) ∧
    demo_runtime_mimic.PyObject_CallOneArg 54 42 demo_registered_mimic
      = (.error ⟨demo_state.ProgrammingError, "can't adapt"⟩, demo_registered_mimic) ∧
    pysqlite_microprotocols_adapt demo_runtime_mimic demo_state demo_registered_mimic 42 20 none
      = (.error ⟨demo_state.ProgrammingError, "can't adapt"⟩, demo_registered_mimic) :=
  ⟨rfl, rfl, rfl⟩

/-- C13, amended: when `pysqlite_microprotocols_adapt` fails with
`ProgrammingError("can't adapt")` and that failure is not one produced by a step
the call invoked (its registry lookup, the adapter found, or the lookup or call
of `__adapt__` and `__conform__`), then the registry had no entry for
`(Py_TYPE(v), P)`, both capabilities were absent or declined and no alternative
was given.  A failure produced by an invoked adapter or capability is the
result as it is, so it is that error only when the adapter or capability
produced that very error; and when control reaches the alternative, no invoked
step produced a failure. -/
theorem cant_adapt_means_unresolved (rt : Runtime H) (state : pysqlite_state) (w : Interp H)
    (v P : PyObject) (alt : Option PyObject) :
    (∀ wf,
      pysqlite_microprotocols_adapt rt state w v P alt
        = (.error ⟨state.ProgrammingError, "can't adapt"⟩, wf) →
      ¬ FailureOfInvoked rt w v P ⟨state.ProgrammingError, "can't adapt"⟩ wf →
      alt = none ∧ ReachesAlt rt w v P wf) ∧
    (∀ e wf, FailureOfInvoked rt w v P e wf →
      pysqlite_microprotocols_adapt rt state w v P alt = (.error e, wf)) ∧
    (∀ w2, ReachesAlt rt w v P w2 → ∀ e wf, ¬ FailureOfInvoked rt w v P e wf) := by
  refine ⟨?_, ?_, ?_⟩
  · intro wf hres hnot
    unfold pysqlite_microprotocols_adapt at hres
    cases hreg : registry_lookup rt w v P with
    | error e =>
      rw [hreg] at hres
      simp only [Prod.mk.injEq, Except.error.injEq] at hres
      exact absurd (Or.inl ⟨by rw [hreg, hres.1], hres.2.symm⟩) hnot
    | ok found =>
      cases found with
      | some a =>
        rw [hreg] at hres
        exact absurd (Or.inr (Or.inl ⟨a, hreg, hres⟩)) hnot
      | none =>
        rw [hreg] at hres
        simp only [adapt_protocol] at hres
        cases h2 : try_capability rt P .PyId___adapt__ v w with
        | returned r w1 =>
          rw [h2] at hres
          simp only [Prod.mk.injEq] at hres
          obtain ⟨hr, hw⟩ := hres
          subst hr hw
          exact absurd (Or.inr (Or.inr ⟨hreg, Or.inl
            (capability_fails_of_returned rt _ _ _ _ _ _ h2)⟩)) hnot
        | declined w1 =>
          rw [h2] at hres
          simp only [adapt_conform] at hres
          have hd := declines_of_try_capability rt _ _ _ _ _ h2
          cases h3 : try_capability rt v .PyId___conform__ P w1 with
          | returned r w2 =>
            rw [h3] at hres
            simp only [Prod.mk.injEq] at hres
            obtain ⟨hr, hw⟩ := hres
            subst hr hw
            exact absurd (Or.inr (Or.inr ⟨hreg, Or.inr ⟨w1, hd,
              capability_fails_of_returned rt _ _ _ _ _ _ h3⟩⟩)) hnot
          | declined w2 =>
            rw [h3] at hres
            cases alt with
            | some a => simp [adapt_alt] at hres
            | none =>
              simp only [adapt_alt, Prod.mk.injEq, true_and] at hres
              subst hres
              exact ⟨rfl, hreg, w1, hd, declines_of_try_capability rt _ _ _ _ _ h3⟩
  · intro e wf hfail
    unfold pysqlite_microprotocols_adapt
    rcases hfail with ⟨hreg, hw⟩ | ⟨a, hreg, hcall⟩ | ⟨hreg, hc | ⟨w1, hd, hc⟩⟩
    · rw [hreg, hw]
    · rw [hreg]
      exact hcall
    · rw [hreg]
      simp only [adapt_protocol, returned_of_capability_fails rt _ _ _ _ _ _ hc]
    · rw [hreg]
      simp only [adapt_protocol, try_capability_of_declines rt _ _ _ _ _ hd, adapt_conform,
        returned_of_capability_fails rt _ _ _ _ _ _ hc]
  · rintro w2 ⟨hreg, w1, h1, h2⟩ e wf hfail
    have t1 := try_capability_of_declines rt _ _ _ _ _ h1
    have t2 := try_capability_of_declines rt _ _ _ _ _ h2
    rcases hfail with ⟨hl, _⟩ | ⟨a, hl, _⟩ | ⟨_, hc | ⟨w1b, hd, hc⟩⟩
    · rw [hreg] at hl
      exact Except.noConfusion hl
    · rw [hreg] at hl
      injection hl with hl
      exact Option.noConfusion hl
    · rw [returned_of_capability_fails rt _ _ _ _ _ _ hc] at t1
      exact Probe.noConfusion t1
    · have t1b := try_capability_of_declines rt _ _ _ _ _ hd
      rw [t1] at t1b
      injection t1b with hw
      subst hw
      rw [returned_of_capability_fails rt _ _ _ _ _ _ hc] at t2
      exact Probe.noConfusion t2

theorem cant_adapt_means_unresolved_witness :
    (pysqlite_microprotocols_adapt demo_runtime_mimic demo_state demo_start 42 24 none
        = (.error ⟨demo_state.ProgrammingError, "can't adapt"⟩, demo_start) ∧
      ReachesAlt demo_runtime_mimic demo_start 42 24 demo_start ∧
      ¬ FailureOfInvoked demo_runtime_mimic demo_start 42 24
        ⟨demo_state.ProgrammingError, "can't adapt"⟩ demo_start ∧
      demo_runtime_mimic.PyObject_CallOneArg 54 42 demo_start
        = (.error ⟨demo_state.ProgrammingError, "can't adapt"⟩, demo_start)) ∧
    (FailureOfInvoked demo_runtime_mimic demo_registered_mimic 42 20 ⟨9, "can't adapt"⟩
        demo_registered_mimic ∧
      pysqlite_microprotocols_adapt demo_runtime_mimic demo_state demo_registered_mimic 42 20
        (some 5) = (.error ⟨9, "can't adapt"⟩, demo_registered_mimic)) ∧
    (FailureOfInvoked demo_runtime demo_start 45 24 ⟨8, "bad value"⟩
        ⟨demo_start.psyco_adapters, 1⟩ ∧
      pysqlite_microprotocols_adapt demo_runtime demo_state demo_start 45 24 (some 5)
        = (.error ⟨8, "bad value"⟩, ⟨demo_start.psyco_adapters, 1⟩)) :=
  have hr : ReachesAlt demo_runtime_mimic demo_start 42 24 demo_start :=
    ⟨rfl, demo_start, Or.inl rfl, Or.inl rfl⟩
  have h := cant_adapt_means_unresolved demo_runtime_mimic demo_state demo_start 42 24 none
  have hnot := h.2.2 demo_start hr ⟨demo_state.ProgrammingError, "can't adapt"⟩ demo_start
  have hf1 : FailureOfInvoked demo_runtime_mimic demo_registered_mimic 42 20
      ⟨9, "can't adapt"⟩ demo_registered_mimic := Or.inr (Or.inl ⟨54, rfl, rfl⟩)
  have hf2 : FailureOfInvoked demo_runtime demo_start 45 24 ⟨8, "bad value"⟩
      ⟨demo_start.psyco_adapters, 1⟩ :=
    Or.inr (Or.inr ⟨rfl, Or.inr ⟨demo_start, Or.inl rfl,
      Or.inr ⟨53, demo_start, rfl, rfl, rfl⟩⟩⟩)
  ⟨⟨rfl, (h.1 demo_start rfl hnot).2, hnot, rfl⟩,
   ⟨hf1, (cant_adapt_means_unresolved demo_runtime_mimic demo_state demo_registered_mimic
      42 20 (some 5)).2.1 _ _ hf1⟩,
   ⟨hf2, (cant_adapt_means_unresolved demo_runtime demo_state demo_start 45 24
      (some 5)).2.1 _ _ hf2⟩⟩

/-- C14, as the claim states it, fails: the key `(100, 30)` is built, but the
protocol object 30 cannot be hashed and the registration fails with the
`TypeError` of the hashing. -/
theorem add_fails_on_unhashable :
    Py_BuildValue demo_runtime 100 30 = .ok (100, 30) ∧
    pysqlite_microprotocols_add demo_runtime demo_start 100 30 99
      = .error ⟨7, "unhashable type"⟩ :=
  ⟨rfl, rfl⟩

/-- C14, amended: `pysqlite_microprotocols_add(T, P, A)` fails only when building
the key fails or when the dict fails to hash the key, with the error of that
step; when the key is built and can be hashed, the registration succeeds and
the lookup under `(T, P)` then finds `A`. -/
theorem add_fails_only_on_key (rt : Runtime H) (w : Interp H) (T P A : PyObject) :
    (∀ e, pysqlite_microprotocols_add rt w T P A = .error e →
      Py_BuildValue rt T P = .error e ∨
      (Py_BuildValue rt T P = .ok (T, P) ∧ tuple_hash rt (T, P) = .error e)) ∧
    (Py_BuildValue rt T P = .ok (T, P) → tuple_hash rt (T, P) = .ok () →
      ∃ w1, pysqlite_microprotocols_add rt w T P A = .ok w1 ∧
        entries_get w1.psyco_adapters.entries (T, P) = some A ∧
        PyDict_GetItemWithError rt w1.psyco_adapters (T, P) = .ok (some A)) := by
  constructor
  · intro e hadd
    unfold pysqlite_microprotocols_add at hadd
    unfold Py_BuildValue at hadd ⊢
    cases halloc : rt.tuple_alloc_error T P with
    | some e0 =>
      rw [halloc] at hadd
      dsimp only at hadd ⊢
      injection hadd with hadd
      exact Or.inl (congrArg Except.error hadd)
    | none =>
      rw [halloc] at hadd
      simp only [PyDict_SetItem] at hadd
      cases hh : tuple_hash rt (T, P) with
      | error e1 =>
        rw [hh] at hadd
        dsimp only at hadd
        injection hadd with hadd
        exact Or.inr ⟨rfl, congrArg Except.error hadd⟩
      | ok u =>
        rw [hh] at hadd
        dsimp only at hadd
        exact Except.noConfusion hadd
  · intro hb hh
    have hadd : ∃ w1, pysqlite_microprotocols_add rt w T P A = .ok w1 := by
      unfold pysqlite_microprotocols_add
      rw [hb]
      simp only [PyDict_SetItem, hh]
      exact ⟨_, rfl⟩
    obtain ⟨w1, hadd⟩ := hadd
    obtain ⟨_, _, hent, _⟩ := add_ok_inv rt w w1 T P A hadd
    refine ⟨w1, hadd, ?_, getitem_after_add_same rt w w1 T P A hadd⟩
    rw [hent, entries_get_set_same]

theorem add_fails_only_on_key_witness :
    (pysqlite_microprotocols_add demo_runtime demo_start 100 30 99
        = .error ⟨7, "unhashable type"⟩ ∧
      (Py_BuildValue demo_runtime 100 30 = .error ⟨7, "unhashable type"⟩ ∨
        (Py_BuildValue demo_runtime 100 30 = .ok (100, 30) ∧
          tuple_hash demo_runtime (100, 30) = .error ⟨7, "unhashable type"⟩))) ∧
    (Py_BuildValue demo_runtime 100 20 = .ok (100, 20) ∧
      tuple_hash demo_runtime (100, 20) = .ok () ∧
      ∃ w1, pysqlite_microprotocols_add demo_runtime demo_start 100 20 99 = .ok w1 ∧
        entries_get w1.psyco_adapters.entries (100, 20) = some 99 ∧
        PyDict_GetItemWithError demo_runtime w1.psyco_adapters (100, 20) = .ok (some 99)) :=
  ⟨⟨rfl, (add_fails_only_on_key demo_runtime demo_start 100 30 99).1
      ⟨7, "unhashable type"⟩ rfl⟩,
   ⟨rfl, rfl, (add_fails_only_on_key demo_runtime demo_start 100 20 99).2 rfl rfl⟩⟩

theorem registry_lookup_frame (rt : Runtime H) (w w1 : Interp H) (T P A v P2 : PyObject)
    (hadd : pysqlite_microprotocols_add rt w T P A = .ok w1)
    (hne : (rt.Py_TYPE v, P2) ≠ (T, P)) :
    registry_lookup rt w1 v P2 = registry_lookup rt w v P2 := by
  unfold registry_lookup Py_BuildValue
  cases rt.tuple_alloc_error (rt.Py_TYPE v) P2 with
  | some e => rfl
  | none => exact getitem_after_add_other rt w w1 T P A _ hadd hne

/-- C15: a successful `pysqlite_microprotocols_add(T, P, A)` changes the entry of
`(T, P)` only.  Under every other key the dict holds, and the lookup answers,
what it did before; every key present before is present after; the heap is
untouched.  So for another protocol `P2` that had no entry for the type of `v`,
with no capabilities, `adapt(v, P2)` still fails with "can't adapt" and
`adapt(v, P2, F)` returns `F`. -/
theorem add_changes_one_entry (rt : Runtime H) (w w1 : Interp H) (T P A : PyObject)
    (hadd : pysqlite_microprotocols_add rt w T P A = .ok w1) :
    (∀ key, key ≠ (T, P) →
      entries_get w1.psyco_adapters.entries key = entries_get w.psyco_adapters.entries key ∧
      PyDict_GetItemWithError rt w1.psyco_adapters key
        = PyDict_GetItemWithError rt w.psyco_adapters key) ∧
    (∀ key, key ∈ w.psyco_adapters.entries.map Prod.fst →
      key ∈ w1.psyco_adapters.entries.map Prod.fst) ∧
    w1.heap = w.heap ∧
    (∀ (state : pysqlite_state) (v P2 F : PyObject) (w2 w3 : Interp H), P2 ≠ P →
      registry_lookup rt w v P2 = .ok none →
      rt._PyObject_LookupAttrId P2 .PyId___adapt__ w1 = (.ok none, w2) →
      rt._PyObject_LookupAttrId v .PyId___conform__ w2 = (.ok none, w3) →
      pysqlite_microprotocols_adapt rt state w1 v P2 none
        = (.error ⟨state.ProgrammingError, "can't adapt"⟩, w3) ∧
      pysqlite_microprotocols_adapt rt state w1 v P2 (some F) = (.ok F, w3)) := by
  obtain ⟨_, _, hent, hheap⟩ := add_ok_inv rt w w1 T P A hadd
  refine ⟨?_, ?_, hheap, ?_⟩
  · intro key hne
    exact ⟨by rw [hent, entries_get_set_other _ _ _ _ (Ne.symm hne)],
      getitem_after_add_other rt w w1 T P A key hadd hne⟩
  · intro key hmem
    rw [hent]
    exact mem_keys_entries_set _ _ _ _ hmem
  · intro state v P2 F w2 w3 hP hnone hadapt hconform
    have hne : (rt.Py_TYPE v, P2) ≠ (T, P) := fun h => hP (congrArg Prod.snd h)
    have hl : registry_lookup rt w1 v P2 = .ok none :=
      (registry_lookup_frame rt w w1 T P A v P2 hadd hne).trans hnone
    constructor
    · unfold pysqlite_microprotocols_adapt
      rw [hl]
      simp only [adapt_protocol, adapt_conform, try_capability, hadapt, hconform, adapt_alt]
    · unfold pysqlite_microprotocols_adapt
      rw [hl]
      simp only [adapt_protocol, adapt_conform, try_capability, hadapt, hconform, adapt_alt]

theorem add_changes_one_entry_witness :
    pysqlite_microprotocols_add demo_runtime demo_start 100 20 99 = .ok demo_registered ∧
    ((100, 24) : Key) ≠ (100, 20) ∧
    PyDict_GetItemWithError demo_runtime demo_registered.psyco_adapters (100, 24)
      = PyDict_GetItemWithError demo_runtime demo_start.psyco_adapters (100, 24) ∧
    (24 : PyObject) ≠ 20 ∧
    registry_lookup demo_runtime demo_start 42 24 = .ok none ∧
    pysqlite_microprotocols_adapt demo_runtime demo_state demo_registered 42 24 none
      = (.error ⟨demo_state.ProgrammingError, "can't adapt"⟩, demo_registered) ∧
    pysqlite_microprotocols_adapt demo_runtime demo_state demo_registered 42 24 (some 70)
      = (.ok 70, demo_registered) :=
  have h := add_changes_one_entry demo_runtime demo_start demo_registered 100 20 99 rfl
  have hx := h.2.2.2 demo_state 42 24 70 demo_registered demo_registered (by decide) rfl rfl rfl
  ⟨rfl, by decide, (h.1 (100, 24) (by decide)).2, by decide, rfl, hx.1, hx.2⟩

theorem registry_lookup_hashing_registry (rt : Runtime H)
    (hashing : PyObject → Interp H → Except PyErr Int × Interp H)
    (w : Interp H) (v P : PyObject)
    (hT : rt.tuple_alloc_error (rt.Py_TYPE v) P = none →
      (hashing (rt.Py_TYPE v) w).2.psyco_adapters = w.psyco_adapters)
    (hP : ∀ h w1, rt.tuple_alloc_error (rt.Py_TYPE v) P = none →
      hashing (rt.Py_TYPE v) w = (.ok h, w1) →
      (hashing P w1).2.psyco_adapters = w1.psyco_adapters) :
    (registry_lookup_hashing rt hashing w v P).2.psyco_adapters = w.psyco_adapters := by
  unfold registry_lookup_hashing Py_BuildValue
  cases halloc : rt.tuple_alloc_error (rt.Py_TYPE v) P with
  | some e => rfl
  | none =>
    dsimp only
    have h1 := hT halloc
    rcases hh1 : hashing (rt.Py_TYPE v) w with ⟨r1, w1⟩
    rw [hh1] at h1
    dsimp only at h1
    rcases r1 with e1 | x1
    · exact h1
    · dsimp only
      have h2 := hP x1 w1 halloc hh1
      rcases hh2 : hashing P w1 with ⟨r2, w2⟩
      rw [hh2] at h2
      dsimp only at h2
      rcases r2 with e2 | x2
      · exact h2.trans h1
      · exact h2.trans h1

/-- C16: `pysqlite_microprotocols_adapt` does not write to the registry.  When
the user code that the call invokes (the adapter found, else the lookups and
calls of `__adapt__` and `__conform__` that are reached) leaves the registry as
it finds it, the registry after `adapt(v, P, alt)` is the registry before,
whichever step produced the result; code that the call does not invoke may
register at will.  The same holds when hashing the key runs user code that
leaves the registry alone; with a hashing that runs no code, that variant is
`pysqlite_microprotocols_adapt`. -/
theorem adapt_keeps_registry (rt : Runtime H) (state : pysqlite_state) (w : Interp H)
    (v P : PyObject) (alt : Option PyObject) :
    ((∀ found, registry_lookup rt w v P = .ok found → InvokedKeepRegistry rt found w v P) →
      (pysqlite_microprotocols_adapt rt state w v P alt).2.psyco_adapters
        = w.psyco_adapters) ∧
    (∀ hashing : PyObject → Interp H → Except PyErr Int × Interp H,
      (rt.tuple_alloc_error (rt.Py_TYPE v) P = none →
        (hashing (rt.Py_TYPE v) w).2.psyco_adapters = w.psyco_adapters) →
      (∀ h w1, rt.tuple_alloc_error (rt.Py_TYPE v) P = none →
        hashing (rt.Py_TYPE v) w = (.ok h, w1) →
        (hashing P w1).2.psyco_adapters = w1.psyco_adapters) →
      (∀ found wh, registry_lookup_hashing rt hashing w v P = (.ok found, wh) →
        InvokedKeepRegistry rt found wh v P) →
      (pysqlite_microprotocols_adapt_hashing rt hashing state w v P alt).2.psyco_adapters
        = w.psyco_adapters) ∧
    pysqlite_microprotocols_adapt_hashing rt (fun o s => (rt.PyObject_Hash o, s)) state w v P alt
      = pysqlite_microprotocols_adapt rt state w v P alt := by
  refine ⟨?_, ?_, ?_⟩
  · intro hinv
    unfold pysqlite_microprotocols_adapt
    cases hreg : registry_lookup rt w v P with
    | error e => rfl
    | ok found =>
      have h := after_lookup_registry rt state w v P alt found (hinv found hreg)
      cases found with
      | some a => exact h
      | none => exact h
  · intro hashing hT hP hinv
    have hl := registry_lookup_hashing_registry rt hashing w v P hT hP
    unfold pysqlite_microprotocols_adapt_hashing
    rcases hreg : registry_lookup_hashing rt hashing w v P with ⟨r, wh⟩
    rw [hreg] at hl
    dsimp only at hl
    rcases r with e | found
    · exact hl
    · have h := after_lookup_registry rt state wh v P alt found (hinv found wh hreg)
      cases found with
      | some a => exact h.trans hl
      | none => exact h.trans hl
  · unfold pysqlite_microprotocols_adapt_hashing pysqlite_microprotocols_adapt
      registry_lookup_hashing registry_lookup PyDict_GetItemWithError tuple_hash
    cases Py_BuildValue rt (rt.Py_TYPE v) P with
    | error e => rfl
    | ok key =>
      dsimp only
      cases rt.PyObject_Hash key.1 with
      | error e => rfl
      | ok x1 =>
        dsimp only
        cases rt.PyObject_Hash key.2 with
        | error e => rfl
        | ok x2 =>
          dsimp only
          cases entries_get w.psyco_adapters.entries key with
          | none => rfl
          | some a => rfl

theorem adapt_keeps_registry_witness :
    (demo_runtime_registering.PyObject_CallOneArg 55 43 demo_start).2.psyco_adapters.entries
      = [((100, 20), 99)] ∧
    ((∀ found, registry_lookup demo_runtime_registering demo_start 43 21 = .ok found →
        InvokedKeepRegistry demo_runtime_registering found demo_start 43 21) ∧
      pysqlite_microprotocols_adapt demo_runtime_registering demo_state demo_start 43 21 none
        = (.ok 60, ⟨demo_start.psyco_adapters, 1⟩) ∧
      (pysqlite_microprotocols_adapt demo_runtime_registering demo_state demo_start 43 21
        none).2.psyco_adapters = demo_start.psyco_adapters) ∧
    ((∀ found wh, registry_lookup_hashing demo_runtime_registering demo_hashing demo_start
          43 21 = (.ok found, wh) →
        InvokedKeepRegistry demo_runtime_registering found wh 43 21) ∧
      pysqlite_microprotocols_adapt_hashing demo_runtime_registering demo_hashing demo_state
        demo_start 43 21 none = (.ok 60, ⟨demo_start.psyco_adapters, 21⟩) ∧
      (pysqlite_microprotocols_adapt_hashing demo_runtime_registering demo_hashing demo_state
        demo_start 43 21 none).2.psyco_adapters = demo_start.psyco_adapters) :=
  have hkeep : ∀ s, InvokedKeepRegistry demo_runtime_registering none s 43 21 := by
    intro s
    refine ⟨rfl, ?_, ?_⟩
    · intro f w1 h
      have h2 : ((Except.ok (some 51) : Except PyErr (Option PyObject)), s)
          = (.ok (some f), w1) := h
      simp only [Prod.mk.injEq, Except.ok.injEq, Option.some.injEq] at h2
      obtain ⟨hf, hw⟩ := h2
      subst hf hw
      rfl
    · intro w1 hd
      have hw1 : w1 = s := by
        rcases hd with h | ⟨f, w0, hl, hc | ⟨e, hc, _⟩⟩
        · have h2 : ((Except.ok (some 51) : Except PyErr (Option PyObject)), s)
              = (.ok none, w1) := h
          simp at h2
        · have h2 : ((Except.ok (some 51) : Except PyErr (Option PyObject)), s)
              = (.ok (some f), w0) := hl
          simp only [Prod.mk.injEq, Except.ok.injEq, Option.some.injEq] at h2
          obtain ⟨hf, hw⟩ := h2
          subst hf hw
          have h3 : ((Except.ok Py_None : Except PyErr PyObject), s) = (.ok Py_None, w1) := hc
          simp only [Prod.mk.injEq, true_and] at h3
          exact h3.symm
        · have h2 : ((Except.ok (some 51) : Except PyErr (Option PyObject)), s)
              = (.ok (some f), w0) := hl
          simp only [Prod.mk.injEq, Except.ok.injEq, Option.some.injEq] at h2
          obtain ⟨hf, hw⟩ := h2
          subst hf hw
          have h3 : ((Except.ok Py_None : Except PyErr PyObject), s) = (.error e, w1) := hc
          simp at h3
      subst hw1
      refine ⟨rfl, ?_⟩
      intro g w2 h
      have h2 : ((Except.ok (some 50) : Except PyErr (Option PyObject)), w1)
          = (.ok (some g), w2) := h
      simp only [Prod.mk.injEq, Except.ok.injEq, Option.some.injEq] at h2
      obtain ⟨hg, hw⟩ := h2
      subst hg hw
      rfl
  have hA : ∀ found, registry_lookup demo_runtime_registering demo_start 43 21 = .ok found →
      InvokedKeepRegistry demo_runtime_registering found demo_start 43 21 := by
    intro found h
    have h2 : (Except.ok none : Except PyErr (Option PyObject)) = .ok found := h
    injection h2 with h2
    subst h2
    exact hkeep demo_start
  have hB : ∀ found wh, registry_lookup_hashing demo_runtime_registering demo_hashing
      demo_start 43 21 = (.ok found, wh) →
      InvokedKeepRegistry demo_runtime_registering found wh 43 21 := by
    intro found wh h
    have h2 : ((Except.ok none : Except PyErr (Option PyObject)),
        (⟨demo_start.psyco_adapters, 20⟩ : Interp Nat)) = (.ok found, wh) := h
    simp only [Prod.mk.injEq, Except.ok.injEq] at h2
    obtain ⟨hf, hw⟩ := h2
    subst hf hw
    exact hkeep _
  have h := adapt_keeps_registry demo_runtime_registering demo_state demo_start 43 21 none
  ⟨rfl, ⟨hA, rfl, h.1 hA⟩,
    ⟨hB, rfl, h.2.1 demo_hashing (fun _ => rfl) (fun _ _ _ _ => rfl) hB⟩⟩

/-- C18: the alternative matters at line 142 only.  When control of `adapt(v, P)`
reaches that line, the call without alternative fails with "can't adapt" and
the call with alternative `F` returns `F`; when it does not, both calls have the
same outcome, which is the case whenever the call without alternative has
another outcome than the "can't adapt" error. -/
theorem adapt_alt_only_at_end (rt : Runtime H) (state : pysqlite_state) (w : Interp H)
    (v P F : PyObject) :
    (∀ w2, ReachesAlt rt w v P w2 →
      pysqlite_microprotocols_adapt rt state w v P none
        = (.error ⟨state.ProgrammingError, "can't adapt"⟩, w2) ∧
      pysqlite_microprotocols_adapt rt state w v P (some F) = (.ok F, w2)) ∧
    ((∀ w2, ¬ ReachesAlt rt w v P w2) →
      pysqlite_microprotocols_adapt rt state w v P (some F)
        = pysqlite_microprotocols_adapt rt state w v P none) ∧
    ((pysqlite_microprotocols_adapt rt state w v P none).1
        ≠ .error ⟨state.ProgrammingError, "can't adapt"⟩ →
      pysqlite_microprotocols_adapt rt state w v P (some F)
        = pysqlite_microprotocols_adapt rt state w v P none) := by
  have ha : ∀ w2, ReachesAlt rt w v P w2 →
      pysqlite_microprotocols_adapt rt state w v P none
        = (.error ⟨state.ProgrammingError, "can't adapt"⟩, w2) ∧
      pysqlite_microprotocols_adapt rt state w v P (some F) = (.ok F, w2) := by
    rintro w2 ⟨hreg, w1, h1, h2⟩
    unfold pysqlite_microprotocols_adapt
    rw [hreg]
    simp only [adapt_protocol, adapt_conform, adapt_alt,
      try_capability_of_declines rt _ _ _ _ _ h1,
      try_capability_of_declines rt _ _ _ _ _ h2, and_self]
  have hb : (∀ w2, ¬ ReachesAlt rt w v P w2) →
      pysqlite_microprotocols_adapt rt state w v P (some F)
        = pysqlite_microprotocols_adapt rt state w v P none := by
    intro hno
    unfold pysqlite_microprotocols_adapt
    cases hreg : registry_lookup rt w v P with
    | error e => rfl
    | ok found =>
      cases found with
      | some a => rfl
      | none =>
        dsimp only
        unfold adapt_protocol
        cases h2 : try_capability rt P .PyId___adapt__ v w with
        | returned r w1 => rfl
        | declined w1 =>
          dsimp only
          unfold adapt_conform
          cases h3 : try_capability rt v .PyId___conform__ P w1 with
          | returned r w2 => rfl
          | declined w2 =>
            exact absurd ⟨hreg, w1, declines_of_try_capability rt _ _ _ _ _ h2,
              declines_of_try_capability rt _ _ _ _ _ h3⟩ (hno w2)
  refine ⟨ha, hb, fun hne => hb (fun w2 hr => hne ?_)⟩
  rw [(ha w2 hr).1]

theorem adapt_alt_only_at_end_witness :
    (ReachesAlt demo_runtime demo_start 42 24 demo_start ∧
      pysqlite_microprotocols_adapt demo_runtime demo_state demo_start 42 24 none
        = (.error ⟨demo_state.ProgrammingError, "can't adapt"⟩, demo_start) ∧
      pysqlite_microprotocols_adapt demo_runtime demo_state demo_start 42 24 (some 70)
        = (.ok 70, demo_start)) ∧
    ((pysqlite_microprotocols_adapt demo_runtime demo_state demo_start 42 23 none).1
        ≠ .error ⟨demo_state.ProgrammingError, "can't adapt"⟩ ∧
      pysqlite_microprotocols_adapt demo_runtime demo_state demo_start 42 23 (some 70)
        = pysqlite_microprotocols_adapt demo_runtime demo_state demo_start 42 23 none ∧
      pysqlite_microprotocols_adapt demo_runtime demo_state demo_start 42 23 none
        = (.error ⟨8, "bad value"⟩, ⟨demo_start.psyco_adapters, 1⟩)) :=
  have hr : ReachesAlt demo_runtime demo_start 42 24 demo_start :=
    ⟨rfl, demo_start, Or.inl rfl, Or.inl rfl⟩
  have hne : (pysqlite_microprotocols_adapt demo_runtime demo_state demo_start 42 23 none).1
      ≠ .error ⟨demo_state.ProgrammingError, "can't adapt"⟩ := by
    intro h
    have h2 : (Except.error ⟨8, "bad value"⟩ : Except PyErr PyObject)
        = .error ⟨demo_state.ProgrammingError, "can't adapt"⟩ := h
    injection h2 with h2
    injection h2 with h3 _
    exact absurd h3 (by decide)
  have h := (adapt_alt_only_at_end demo_runtime demo_state demo_start 42 24 70).1 demo_start hr
  ⟨⟨hr, h.1, h.2⟩,
   ⟨hne, (adapt_alt_only_at_end demo_runtime demo_state demo_start 42 23 70).2.2 hne, rfl⟩⟩

/-- C19: a failing attribute lookup is not an absent capability.  With no
registry entry for `(Py_TYPE(v), P)`, when looking `__adapt__` up on `P` fails
with `e` (of any class), `pysqlite_microprotocols_adapt` fails with `e` in the
state the lookup leaves, for every alternative; and when step 2 was absent or
declined and looking `__conform__` up on `v` fails with `e`, it fails with `e`,
for every alternative. -/
theorem adapt_attr_lookup_failure (rt : Runtime H) (state : pysqlite_state) (w : Interp H)
    (v P : PyObject) (alt : Option PyObject)
    (hreg : registry_lookup rt w v P = .ok none) :
    (∀ e w1, rt._PyObject_LookupAttrId P .PyId___adapt__ w = (.error e, w1) →
      pysqlite_microprotocols_adapt rt state w v P alt = (.error e, w1)) ∧
    (∀ e w1 w2, Declines rt P .PyId___adapt__ v w w1 →
      rt._PyObject_LookupAttrId v .PyId___conform__ w1 = (.error e, w2) →
      pysqlite_microprotocols_adapt rt state w v P alt = (.error e, w2)) := by
  constructor
  · intro e w1 hattr
    unfold pysqlite_microprotocols_adapt
    rw [hreg]
    simp only [adapt_protocol, try_capability, hattr]
  · intro e w1 w2 hadapt hattr
    unfold pysqlite_microprotocols_adapt
    rw [hreg]
    simp only [adapt_protocol, try_capability_of_declines rt _ _ _ _ _ hadapt, adapt_conform]
    simp only [try_capability, hattr]

theorem adapt_attr_lookup_failure_witness :
    (registry_lookup demo_runtime demo_start 43 25 = .ok none ∧
      demo_runtime._PyObject_LookupAttrId 25 .PyId___adapt__ demo_start
        = (.error ⟨8, "lookup failed"⟩, demo_start) ∧
      pysqlite_microprotocols_adapt demo_runtime demo_state demo_start 43 25 (some 70)
        = (.error ⟨8, "lookup failed"⟩, demo_start)) ∧
    (registry_lookup demo_runtime demo_start 46 22 = .ok none ∧
      Declines demo_runtime 22 .PyId___adapt__ 46 demo_start ⟨demo_start.psyco_adapters, 1⟩ ∧
      demo_runtime._PyObject_LookupAttrId 46 .PyId___conform__ ⟨demo_start.psyco_adapters, 1⟩
        = (.error ⟨7, "lookup failed"⟩, ⟨demo_start.psyco_adapters, 1⟩) ∧
      demo_runtime.PyErr_ExceptionMatches ⟨7, "lookup failed"⟩ demo_runtime.PyExc_TypeError
        = true ∧
      pysqlite_microprotocols_adapt demo_runtime demo_state demo_start 46 22 (some 70)
        = (.error ⟨7, "lookup failed"⟩, ⟨demo_start.psyco_adapters, 1⟩)) :=
  have hd : Declines demo_runtime 22 .PyId___adapt__ 46 demo_start
      ⟨demo_start.psyco_adapters, 1⟩ :=
    Or.inr ⟨52, demo_start, rfl, Or.inr ⟨⟨7, "wrong type"⟩, rfl, rfl⟩⟩
  ⟨⟨rfl, rfl, (adapt_attr_lookup_failure demo_runtime demo_state demo_start 43 25 (some 70)
      rfl).1 ⟨8, "lookup failed"⟩ demo_start rfl⟩,
   ⟨rfl, hd, rfl, rfl,
    (adapt_attr_lookup_failure demo_runtime demo_state demo_start 46 22 (some 70) rfl).2
      ⟨7, "lookup failed"⟩ ⟨demo_start.psyco_adapters, 1⟩ ⟨demo_start.psyco_adapters, 1⟩
      hd rfl⟩⟩

end Microprotocols
